import Mathlib

set_option maxRecDepth 10000

/-!
Verification of the slicesync core: a shallow embedding of the fingerprint
writer, fingerprint reader, naive diff engine, rolling Adler-32 checksum,
local range reader and path check, translated from the Go sources.

Go strings and byte streams are modelled as `List Nat` (byte values); a
fingerprint stream is the flat byte list the writer produces, and the
reader splits it at newline bytes exactly as `bufio.ReadString('\n')` does.
-/

namespace Slicesync

/-- Byte value of the newline character used as the line terminator. -/
def nl : Nat := 10

/-- Bytes of the string "Error:", the in-band error marker prefix. -/
def errMarker : List Nat := [69, 114, 114, 111, 114, 58]

/-- Bytes of the string "sha1", the whole-file hash name (`newHasher().Name()`). -/
def sha1Name : List Nat := [115, 104, 97, 49]

/-- Bytes of the string "adler32+md5", the slice hash name (`newSliceHasher().Name()`). -/
def sliceHasherName : List Nat := [97, 100, 108, 101, 114, 51, 50, 43, 109, 100, 53]

/-- Bytes of the string "1", the fingerprint `Version` constant. -/
def versionBytes : List Nat := [49]

/-- Decide whether byte `c` belongs to the cutset of `strings.Trim(s, " \n")`. -/
def isCut (c : Nat) : Bool := c = 32 || c = 10

/-- Remove leading cutset bytes, as the left half of `strings.Trim(s, " \n")`. -/
def trimLeft : List Nat → List Nat
  | [] => []
  | c :: r => if isCut c then trimLeft r else c :: r

/-- Model of `strings.Trim(s, " \n")`: strip spaces and newlines from both ends. -/
def trimBytes (s : List Nat) : List Nat :=
  ((trimLeft (trimLeft s).reverse)).reverse

/-- Decide whether `p` is a prefix of `s`, as `strings.HasPrefix`. -/
def startsWith : List Nat → List Nat → Bool
  | [], _ => true
  | _ :: _, [] => false
  | p :: ps, c :: cs => p = c && startsWith ps cs

/-- Split the stream at the first newline, as `bufio.Reader.ReadString('\n')`:
returns the line including its terminator and the remaining bytes, or `none`
when no newline is found (the reader then reports an error). -/
def splitLine : List Nat → Option (List Nat × List Nat)
  | [] => none
  | c :: rest =>
    if c = nl then some ([c], rest)
    else match splitLine rest with
      | none => none
      | some (l, r) => some (c :: l, r)

/-! ### Rolling Adler-32 checksum (C1 component, Go file with `digest`/`roll`)

The Go digest state is the pair of `uint32` accumulators `(a, b)`; all
arithmetic is modelled over `Nat` with explicit reduction modulo `2^32`
where the Go code relies on unsigned wraparound. -/

/-- The Adler modulus constant `mod = 65521`. -/
def mod : Nat := 65521

/-- Modulus of 32-bit unsigned arithmetic. -/
def u32 : Nat := 4294967296

/-- The deferred-reduction threshold `(0xffffffff - 255) / 2` used by
`update` and `roll`. -/
def redThr : Nat := (4294967295 - 255) / 2

/-- One iteration of the loop body of `update`: add byte `p` to the running
checksum `(a, b)` with `uint32` wraparound, reducing both accumulators
modulo 65521 once `b` passes the threshold. -/
def updateStep (ab : Nat × Nat) (p : Nat) : Nat × Nat :=
  let a := (ab.1 + p) % u32
  let b := (ab.2 + a) % u32
  if redThr < b then (a % mod, b % mod) else (a, b)

/-- The Go `update(a, b, p)`: fold the loop body over the byte slice. -/
def update (a b : Nat) (p : List Nat) : Nat × Nat :=
  p.foldl updateStep (a, b)

/-- The Go `finish(a, b)`: a final conditional reduction, then `b<<16 | a`. -/
def finish (a b : Nat) : Nat :=
  if mod ≤ b then ((b % mod) <<< 16) ||| (a % mod)
  else (b <<< 16) ||| a

/-- `Checksum` returns the Adler-32 checksum of `data` computed from scratch. -/
def Checksum (data : List Nat) : Nat :=
  finish (update 1 0 data).1 (update 1 0 data).2

/-- The Go `roll(a, b, window, oldest, newest)`: remove the oldest byte's
effect and add the newest in O(1), with `uint32` wraparound on the
subtractions, then the same conditional reduction as `update`. -/
def roll (a b window oldest newest : Nat) : Nat × Nat :=
  let a := (a + newest + (u32 - oldest % u32)) % u32
  let b := (b + a + (u32 - (window * oldest) % u32) + (u32 - 1)) % u32
  if redThr < b then (a % mod, b % mod) else (a, b)

/-- A fresh digest as produced by `NewRollingAdler32` after `Reset`. -/
def NewRollingAdler32 : Nat × Nat := (1, 0)

/-- The digest method `Write`, incorporating bytes `p` into the state. -/
def Write (d : Nat × Nat) (p : List Nat) : Nat × Nat :=
  update d.1 d.2 p

/-- The digest method `Sum32`. -/
def Sum32 (d : Nat × Nat) : Nat :=
  finish d.1 d.2

/-- The digest method `Roll32`, returning the updated state (its Go return
value is `Sum32` of that state). -/
def Roll32 (d : Nat × Nat) (window oldbyte newbyte : Nat) : Nat × Nat :=
  roll d.1 d.2 window oldbyte newbyte

/-- State of the rolling digest after loading the first `w` bytes of `data`
and then performing `i` successive `Roll32` steps, exactly as the
`TestRolling` correctness test drives it. -/
def rollStates (data : List Nat) (w : Nat) : Nat → Nat × Nat
  | 0 => Write NewRollingAdler32 (data.take w)
  | i + 1 => Roll32 (rollStates data w i) w (data.getD i 0) (data.getD (i + w) 0)

/-- Evaluation helper: `update` from state `(a, b)` over `n` bytes of value 255. -/
def updateRep (n a b : Nat) : Nat × Nat :=
  update a b (List.replicate n 255)

/-- Folding `update` over an appended byte list runs the two parts in sequence. -/
theorem update_append (a b : Nat) (p q : List Nat) :
    update a b (p ++ q) = update (update a b p).1 (update a b p).2 q := by
  simp [update, List.foldl_append]

/-- Splitting an `updateRep` run into two consecutive runs. -/
theorem updateRep_add (m n a b : Nat) :
    updateRep (m + n) a b = updateRep n (updateRep m a b).1 (updateRep m a b).2 := by
  unfold updateRep
  rw [List.replicate_add, update_append]

/-- Concrete 50-byte evaluation step 0 of the all-255 load. -/
theorem adlerChunk0 : updateRep 50 1 0 = (12751, 325175) := by decide

/-- Concrete 50-byte evaluation step 1 of the all-255 load. -/
theorem adlerChunk1 : updateRep 50 12751 325175 = (25501, 1287850) := by decide

/-- Concrete 50-byte evaluation step 2 of the all-255 load. -/
theorem adlerChunk2 : updateRep 50 25501 1287850 = (38251, 2888025) := by decide

/-- Concrete 50-byte evaluation step 3 of the all-255 load. -/
theorem adlerChunk3 : updateRep 50 38251 2888025 = (51001, 5125700) := by decide

/-- Concrete 50-byte evaluation step 4 of the all-255 load. -/
theorem adlerChunk4 : updateRep 50 51001 5125700 = (63751, 8000875) := by decide

/-- Concrete 50-byte evaluation step 5 of the all-255 load. -/
theorem adlerChunk5 : updateRep 50 63751 8000875 = (76501, 11513550) := by decide

/-- Concrete 50-byte evaluation step 6 of the all-255 load. -/
theorem adlerChunk6 : updateRep 50 76501 11513550 = (89251, 15663725) := by decide

/-- Concrete 50-byte evaluation step 7 of the all-255 load. -/
theorem adlerChunk7 : updateRep 50 89251 15663725 = (102001, 20451400) := by decide

/-- Concrete 50-byte evaluation step 8 of the all-255 load. -/
theorem adlerChunk8 : updateRep 50 102001 20451400 = (114751, 25876575) := by decide

/-- Concrete 50-byte evaluation step 9 of the all-255 load. -/
theorem adlerChunk9 : updateRep 50 114751 25876575 = (127501, 31939250) := by decide

/-- Concrete 50-byte evaluation step 10 of the all-255 load. -/
theorem adlerChunk10 : updateRep 50 127501 31939250 = (140251, 38639425) := by decide

/-- Concrete 50-byte evaluation step 11 of the all-255 load. -/
theorem adlerChunk11 : updateRep 50 140251 38639425 = (153001, 45977100) := by decide

/-- Concrete 50-byte evaluation step 12 of the all-255 load. -/
theorem adlerChunk12 : updateRep 50 153001 45977100 = (165751, 53952275) := by decide

/-- Concrete 50-byte evaluation step 13 of the all-255 load. -/
theorem adlerChunk13 : updateRep 50 165751 53952275 = (178501, 62564950) := by decide

/-- Concrete 50-byte evaluation step 14 of the all-255 load. -/
theorem adlerChunk14 : updateRep 50 178501 62564950 = (191251, 71815125) := by decide

/-- Concrete 50-byte evaluation step 15 of the all-255 load. -/
theorem adlerChunk15 : updateRep 50 191251 71815125 = (204001, 81702800) := by decide

/-- Concrete 50-byte evaluation step 16 of the all-255 load. -/
theorem adlerChunk16 : updateRep 50 204001 81702800 = (216751, 92227975) := by decide

/-- Concrete 50-byte evaluation step 17 of the all-255 load. -/
theorem adlerChunk17 : updateRep 50 216751 92227975 = (229501, 103390650) := by decide

/-- Concrete 50-byte evaluation step 18 of the all-255 load. -/
theorem adlerChunk18 : updateRep 50 229501 103390650 = (242251, 115190825) := by decide

/-- Concrete 50-byte evaluation step 19 of the all-255 load. -/
theorem adlerChunk19 : updateRep 50 242251 115190825 = (255001, 127628500) := by decide

/-- Concrete 50-byte evaluation step 20 of the all-255 load. -/
theorem adlerChunk20 : updateRep 50 255001 127628500 = (267751, 140703675) := by decide

/-- Concrete 50-byte evaluation step 21 of the all-255 load. -/
theorem adlerChunk21 : updateRep 50 267751 140703675 = (280501, 154416350) := by decide

/-- Concrete 50-byte evaluation step 22 of the all-255 load. -/
theorem adlerChunk22 : updateRep 50 280501 154416350 = (293251, 168766525) := by decide

/-- Concrete 50-byte evaluation step 23 of the all-255 load. -/
theorem adlerChunk23 : updateRep 50 293251 168766525 = (306001, 183754200) := by decide

/-- Concrete 50-byte evaluation step 24 of the all-255 load. -/
theorem adlerChunk24 : updateRep 50 306001 183754200 = (318751, 199379375) := by decide

/-- Concrete 50-byte evaluation step 25 of the all-255 load. -/
theorem adlerChunk25 : updateRep 50 318751 199379375 = (331501, 215642050) := by decide

/-- Concrete 50-byte evaluation step 26 of the all-255 load. -/
theorem adlerChunk26 : updateRep 50 331501 215642050 = (344251, 232542225) := by decide

/-- Concrete 50-byte evaluation step 27 of the all-255 load. -/
theorem adlerChunk27 : updateRep 50 344251 232542225 = (357001, 250079900) := by decide

/-- Concrete 50-byte evaluation step 28 of the all-255 load. -/
theorem adlerChunk28 : updateRep 50 357001 250079900 = (369751, 268255075) := by decide

/-- Concrete 50-byte evaluation step 29 of the all-255 load. -/
theorem adlerChunk29 : updateRep 50 369751 268255075 = (382501, 287067750) := by decide

/-- Concrete 50-byte evaluation step 30 of the all-255 load. -/
theorem adlerChunk30 : updateRep 50 382501 287067750 = (395251, 306517925) := by decide

/-- Concrete 50-byte evaluation step 31 of the all-255 load. -/
theorem adlerChunk31 : updateRep 50 395251 306517925 = (408001, 326605600) := by decide

/-- Concrete 50-byte evaluation step 32 of the all-255 load. -/
theorem adlerChunk32 : updateRep 50 408001 326605600 = (420751, 347330775) := by decide

/-- Concrete 50-byte evaluation step 33 of the all-255 load. -/
theorem adlerChunk33 : updateRep 50 420751 347330775 = (433501, 368693450) := by decide

/-- Concrete 50-byte evaluation step 34 of the all-255 load. -/
theorem adlerChunk34 : updateRep 50 433501 368693450 = (446251, 390693625) := by decide

/-- Concrete 50-byte evaluation step 35 of the all-255 load. -/
theorem adlerChunk35 : updateRep 50 446251 390693625 = (459001, 413331300) := by decide

/-- Concrete 50-byte evaluation step 36 of the all-255 load. -/
theorem adlerChunk36 : updateRep 50 459001 413331300 = (471751, 436606475) := by decide

/-- Concrete 50-byte evaluation step 37 of the all-255 load. -/
theorem adlerChunk37 : updateRep 50 471751 436606475 = (484501, 460519150) := by decide

/-- Concrete 50-byte evaluation step 38 of the all-255 load. -/
theorem adlerChunk38 : updateRep 50 484501 460519150 = (497251, 485069325) := by decide

/-- Concrete 50-byte evaluation step 39 of the all-255 load. -/
theorem adlerChunk39 : updateRep 50 497251 485069325 = (510001, 510257000) := by decide

/-- Concrete 50-byte evaluation step 40 of the all-255 load. -/
theorem adlerChunk40 : updateRep 50 510001 510257000 = (522751, 536082175) := by decide

/-- Concrete 50-byte evaluation step 41 of the all-255 load. -/
theorem adlerChunk41 : updateRep 50 522751 536082175 = (535501, 562544850) := by decide

/-- Concrete 50-byte evaluation step 42 of the all-255 load. -/
theorem adlerChunk42 : updateRep 50 535501 562544850 = (548251, 589645025) := by decide

/-- Concrete 50-byte evaluation step 43 of the all-255 load. -/
theorem adlerChunk43 : updateRep 50 548251 589645025 = (561001, 617382700) := by decide

/-- Concrete 50-byte evaluation step 44 of the all-255 load. -/
theorem adlerChunk44 : updateRep 50 561001 617382700 = (573751, 645757875) := by decide

/-- Concrete 50-byte evaluation step 45 of the all-255 load. -/
theorem adlerChunk45 : updateRep 50 573751 645757875 = (586501, 674770550) := by decide

/-- Concrete 50-byte evaluation step 46 of the all-255 load. -/
theorem adlerChunk46 : updateRep 50 586501 674770550 = (599251, 704420725) := by decide

/-- Concrete 50-byte evaluation step 47 of the all-255 load. -/
theorem adlerChunk47 : updateRep 50 599251 704420725 = (612001, 734708400) := by decide

/-- Concrete 50-byte evaluation step 48 of the all-255 load. -/
theorem adlerChunk48 : updateRep 50 612001 734708400 = (624751, 765633575) := by decide

/-- Concrete 50-byte evaluation step 49 of the all-255 load. -/
theorem adlerChunk49 : updateRep 50 624751 765633575 = (637501, 797196250) := by decide

/-- Concrete 50-byte evaluation step 50 of the all-255 load. -/
theorem adlerChunk50 : updateRep 50 637501 797196250 = (650251, 829396425) := by decide

/-- Concrete 50-byte evaluation step 51 of the all-255 load. -/
theorem adlerChunk51 : updateRep 50 650251 829396425 = (663001, 862234100) := by decide

/-- Concrete 50-byte evaluation step 52 of the all-255 load. -/
theorem adlerChunk52 : updateRep 50 663001 862234100 = (675751, 895709275) := by decide

/-- Concrete 50-byte evaluation step 53 of the all-255 load. -/
theorem adlerChunk53 : updateRep 50 675751 895709275 = (688501, 929821950) := by decide

/-- Concrete 50-byte evaluation step 54 of the all-255 load. -/
theorem adlerChunk54 : updateRep 50 688501 929821950 = (701251, 964572125) := by decide

/-- Concrete 50-byte evaluation step 55 of the all-255 load. -/
theorem adlerChunk55 : updateRep 50 701251 964572125 = (714001, 999959800) := by decide

/-- Concrete 50-byte evaluation step 56 of the all-255 load. -/
theorem adlerChunk56 : updateRep 50 714001 999959800 = (726751, 1035984975) := by decide

/-- Concrete 50-byte evaluation step 57 of the all-255 load. -/
theorem adlerChunk57 : updateRep 50 726751 1035984975 = (739501, 1072647650) := by decide

/-- Concrete 50-byte evaluation step 58 of the all-255 load. -/
theorem adlerChunk58 : updateRep 50 739501 1072647650 = (752251, 1109947825) := by decide

/-- Concrete 50-byte evaluation step 59 of the all-255 load. -/
theorem adlerChunk59 : updateRep 50 752251 1109947825 = (765001, 1147885500) := by decide

/-- Concrete 50-byte evaluation step 60 of the all-255 load. -/
theorem adlerChunk60 : updateRep 50 765001 1147885500 = (777751, 1186460675) := by decide

/-- Concrete 50-byte evaluation step 61 of the all-255 load. -/
theorem adlerChunk61 : updateRep 50 777751 1186460675 = (790501, 1225673350) := by decide

/-- Concrete 50-byte evaluation step 62 of the all-255 load. -/
theorem adlerChunk62 : updateRep 50 790501 1225673350 = (803251, 1265523525) := by decide

/-- Concrete 50-byte evaluation step 63 of the all-255 load. -/
theorem adlerChunk63 : updateRep 50 803251 1265523525 = (816001, 1306011200) := by decide

/-- Concrete 50-byte evaluation step 64 of the all-255 load. -/
theorem adlerChunk64 : updateRep 50 816001 1306011200 = (828751, 1347136375) := by decide

/-- Concrete 50-byte evaluation step 65 of the all-255 load. -/
theorem adlerChunk65 : updateRep 50 828751 1347136375 = (841501, 1388899050) := by decide

/-- Concrete 50-byte evaluation step 66 of the all-255 load. -/
theorem adlerChunk66 : updateRep 50 841501 1388899050 = (854251, 1431299225) := by decide

/-- Concrete 50-byte evaluation step 67 of the all-255 load. -/
theorem adlerChunk67 : updateRep 50 854251 1431299225 = (867001, 1474336900) := by decide

/-- Concrete 50-byte evaluation step 68 of the all-255 load. -/
theorem adlerChunk68 : updateRep 50 867001 1474336900 = (879751, 1518012075) := by decide

/-- Concrete 50-byte evaluation step 69 of the all-255 load. -/
theorem adlerChunk69 : updateRep 50 879751 1518012075 = (892501, 1562324750) := by decide

/-- Concrete 50-byte evaluation step 70 of the all-255 load. -/
theorem adlerChunk70 : updateRep 50 892501 1562324750 = (905251, 1607274925) := by decide

/-- Concrete 50-byte evaluation step 71 of the all-255 load. -/
theorem adlerChunk71 : updateRep 50 905251 1607274925 = (918001, 1652862600) := by decide

/-- Concrete 50-byte evaluation step 72 of the all-255 load. -/
theorem adlerChunk72 : updateRep 50 918001 1652862600 = (930751, 1699087775) := by decide

/-- Concrete 50-byte evaluation step 73 of the all-255 load. -/
theorem adlerChunk73 : updateRep 50 930751 1699087775 = (943501, 1745950450) := by decide

/-- Concrete 50-byte evaluation step 74 of the all-255 load. -/
theorem adlerChunk74 : updateRep 50 943501 1745950450 = (956251, 1793450625) := by decide

/-- Concrete 50-byte evaluation step 75 of the all-255 load. -/
theorem adlerChunk75 : updateRep 50 956251 1793450625 = (969001, 1841588300) := by decide

/-- Concrete 50-byte evaluation step 76 of the all-255 load. -/
theorem adlerChunk76 : updateRep 50 969001 1841588300 = (981751, 1890363475) := by decide

/-- Concrete 50-byte evaluation step 77 of the all-255 load. -/
theorem adlerChunk77 : updateRep 50 981751 1890363475 = (994501, 1939776150) := by decide

/-- Concrete 50-byte evaluation step 78 of the all-255 load. -/
theorem adlerChunk78 : updateRep 50 994501 1939776150 = (1007251, 1989826325) := by decide

/-- Concrete 50-byte evaluation step 79 of the all-255 load. -/
theorem adlerChunk79 : updateRep 50 1007251 1989826325 = (1020001, 2040514000) := by decide

/-- Concrete 50-byte evaluation step 80 of the all-255 load. -/
theorem adlerChunk80 : updateRep 50 1020001 2040514000 = (1032751, 2091839175) := by decide

/-- Concrete 50-byte evaluation step 81 of the all-255 load. -/
theorem adlerChunk81 : updateRep 50 1032751 2091839175 = (1045501, 2143801850) := by decide

/-- State of the accumulators after loading 4100 bytes of value 255. -/
theorem adler4100 : updateRep 4100 1 0 = (1045501, 2143801850) := by
  have h0 : updateRep 4100 1 0 = updateRep 4050 12751 325175 := by
    rw [show (4100 : Nat) = 50 + 4050 from rfl, updateRep_add, adlerChunk0]
  have h1 : updateRep 4050 12751 325175 = updateRep 4000 25501 1287850 := by
    rw [show (4050 : Nat) = 50 + 4000 from rfl, updateRep_add, adlerChunk1]
  have h2 : updateRep 4000 25501 1287850 = updateRep 3950 38251 2888025 := by
    rw [show (4000 : Nat) = 50 + 3950 from rfl, updateRep_add, adlerChunk2]
  have h3 : updateRep 3950 38251 2888025 = updateRep 3900 51001 5125700 := by
    rw [show (3950 : Nat) = 50 + 3900 from rfl, updateRep_add, adlerChunk3]
  have h4 : updateRep 3900 51001 5125700 = updateRep 3850 63751 8000875 := by
    rw [show (3900 : Nat) = 50 + 3850 from rfl, updateRep_add, adlerChunk4]
  have h5 : updateRep 3850 63751 8000875 = updateRep 3800 76501 11513550 := by
    rw [show (3850 : Nat) = 50 + 3800 from rfl, updateRep_add, adlerChunk5]
  have h6 : updateRep 3800 76501 11513550 = updateRep 3750 89251 15663725 := by
    rw [show (3800 : Nat) = 50 + 3750 from rfl, updateRep_add, adlerChunk6]
  have h7 : updateRep 3750 89251 15663725 = updateRep 3700 102001 20451400 := by
    rw [show (3750 : Nat) = 50 + 3700 from rfl, updateRep_add, adlerChunk7]
  have h8 : updateRep 3700 102001 20451400 = updateRep 3650 114751 25876575 := by
    rw [show (3700 : Nat) = 50 + 3650 from rfl, updateRep_add, adlerChunk8]
  have h9 : updateRep 3650 114751 25876575 = updateRep 3600 127501 31939250 := by
    rw [show (3650 : Nat) = 50 + 3600 from rfl, updateRep_add, adlerChunk9]
  have h10 : updateRep 3600 127501 31939250 = updateRep 3550 140251 38639425 := by
    rw [show (3600 : Nat) = 50 + 3550 from rfl, updateRep_add, adlerChunk10]
  have h11 : updateRep 3550 140251 38639425 = updateRep 3500 153001 45977100 := by
    rw [show (3550 : Nat) = 50 + 3500 from rfl, updateRep_add, adlerChunk11]
  have h12 : updateRep 3500 153001 45977100 = updateRep 3450 165751 53952275 := by
    rw [show (3500 : Nat) = 50 + 3450 from rfl, updateRep_add, adlerChunk12]
  have h13 : updateRep 3450 165751 53952275 = updateRep 3400 178501 62564950 := by
    rw [show (3450 : Nat) = 50 + 3400 from rfl, updateRep_add, adlerChunk13]
  have h14 : updateRep 3400 178501 62564950 = updateRep 3350 191251 71815125 := by
    rw [show (3400 : Nat) = 50 + 3350 from rfl, updateRep_add, adlerChunk14]
  have h15 : updateRep 3350 191251 71815125 = updateRep 3300 204001 81702800 := by
    rw [show (3350 : Nat) = 50 + 3300 from rfl, updateRep_add, adlerChunk15]
  have h16 : updateRep 3300 204001 81702800 = updateRep 3250 216751 92227975 := by
    rw [show (3300 : Nat) = 50 + 3250 from rfl, updateRep_add, adlerChunk16]
  have h17 : updateRep 3250 216751 92227975 = updateRep 3200 229501 103390650 := by
    rw [show (3250 : Nat) = 50 + 3200 from rfl, updateRep_add, adlerChunk17]
  have h18 : updateRep 3200 229501 103390650 = updateRep 3150 242251 115190825 := by
    rw [show (3200 : Nat) = 50 + 3150 from rfl, updateRep_add, adlerChunk18]
  have h19 : updateRep 3150 242251 115190825 = updateRep 3100 255001 127628500 := by
    rw [show (3150 : Nat) = 50 + 3100 from rfl, updateRep_add, adlerChunk19]
  have h20 : updateRep 3100 255001 127628500 = updateRep 3050 267751 140703675 := by
    rw [show (3100 : Nat) = 50 + 3050 from rfl, updateRep_add, adlerChunk20]
  have h21 : updateRep 3050 267751 140703675 = updateRep 3000 280501 154416350 := by
    rw [show (3050 : Nat) = 50 + 3000 from rfl, updateRep_add, adlerChunk21]
  have h22 : updateRep 3000 280501 154416350 = updateRep 2950 293251 168766525 := by
    rw [show (3000 : Nat) = 50 + 2950 from rfl, updateRep_add, adlerChunk22]
  have h23 : updateRep 2950 293251 168766525 = updateRep 2900 306001 183754200 := by
    rw [show (2950 : Nat) = 50 + 2900 from rfl, updateRep_add, adlerChunk23]
  have h24 : updateRep 2900 306001 183754200 = updateRep 2850 318751 199379375 := by
    rw [show (2900 : Nat) = 50 + 2850 from rfl, updateRep_add, adlerChunk24]
  have h25 : updateRep 2850 318751 199379375 = updateRep 2800 331501 215642050 := by
    rw [show (2850 : Nat) = 50 + 2800 from rfl, updateRep_add, adlerChunk25]
  have h26 : updateRep 2800 331501 215642050 = updateRep 2750 344251 232542225 := by
    rw [show (2800 : Nat) = 50 + 2750 from rfl, updateRep_add, adlerChunk26]
  have h27 : updateRep 2750 344251 232542225 = updateRep 2700 357001 250079900 := by
    rw [show (2750 : Nat) = 50 + 2700 from rfl, updateRep_add, adlerChunk27]
  have h28 : updateRep 2700 357001 250079900 = updateRep 2650 369751 268255075 := by
    rw [show (2700 : Nat) = 50 + 2650 from rfl, updateRep_add, adlerChunk28]
  have h29 : updateRep 2650 369751 268255075 = updateRep 2600 382501 287067750 := by
    rw [show (2650 : Nat) = 50 + 2600 from rfl, updateRep_add, adlerChunk29]
  have h30 : updateRep 2600 382501 287067750 = updateRep 2550 395251 306517925 := by
    rw [show (2600 : Nat) = 50 + 2550 from rfl, updateRep_add, adlerChunk30]
  have h31 : updateRep 2550 395251 306517925 = updateRep 2500 408001 326605600 := by
    rw [show (2550 : Nat) = 50 + 2500 from rfl, updateRep_add, adlerChunk31]
  have h32 : updateRep 2500 408001 326605600 = updateRep 2450 420751 347330775 := by
    rw [show (2500 : Nat) = 50 + 2450 from rfl, updateRep_add, adlerChunk32]
  have h33 : updateRep 2450 420751 347330775 = updateRep 2400 433501 368693450 := by
    rw [show (2450 : Nat) = 50 + 2400 from rfl, updateRep_add, adlerChunk33]
  have h34 : updateRep 2400 433501 368693450 = updateRep 2350 446251 390693625 := by
    rw [show (2400 : Nat) = 50 + 2350 from rfl, updateRep_add, adlerChunk34]
  have h35 : updateRep 2350 446251 390693625 = updateRep 2300 459001 413331300 := by
    rw [show (2350 : Nat) = 50 + 2300 from rfl, updateRep_add, adlerChunk35]
  have h36 : updateRep 2300 459001 413331300 = updateRep 2250 471751 436606475 := by
    rw [show (2300 : Nat) = 50 + 2250 from rfl, updateRep_add, adlerChunk36]
  have h37 : updateRep 2250 471751 436606475 = updateRep 2200 484501 460519150 := by
    rw [show (2250 : Nat) = 50 + 2200 from rfl, updateRep_add, adlerChunk37]
  have h38 : updateRep 2200 484501 460519150 = updateRep 2150 497251 485069325 := by
    rw [show (2200 : Nat) = 50 + 2150 from rfl, updateRep_add, adlerChunk38]
  have h39 : updateRep 2150 497251 485069325 = updateRep 2100 510001 510257000 := by
    rw [show (2150 : Nat) = 50 + 2100 from rfl, updateRep_add, adlerChunk39]
  have h40 : updateRep 2100 510001 510257000 = updateRep 2050 522751 536082175 := by
    rw [show (2100 : Nat) = 50 + 2050 from rfl, updateRep_add, adlerChunk40]
  have h41 : updateRep 2050 522751 536082175 = updateRep 2000 535501 562544850 := by
    rw [show (2050 : Nat) = 50 + 2000 from rfl, updateRep_add, adlerChunk41]
  have h42 : updateRep 2000 535501 562544850 = updateRep 1950 548251 589645025 := by
    rw [show (2000 : Nat) = 50 + 1950 from rfl, updateRep_add, adlerChunk42]
  have h43 : updateRep 1950 548251 589645025 = updateRep 1900 561001 617382700 := by
    rw [show (1950 : Nat) = 50 + 1900 from rfl, updateRep_add, adlerChunk43]
  have h44 : updateRep 1900 561001 617382700 = updateRep 1850 573751 645757875 := by
    rw [show (1900 : Nat) = 50 + 1850 from rfl, updateRep_add, adlerChunk44]
  have h45 : updateRep 1850 573751 645757875 = updateRep 1800 586501 674770550 := by
    rw [show (1850 : Nat) = 50 + 1800 from rfl, updateRep_add, adlerChunk45]
  have h46 : updateRep 1800 586501 674770550 = updateRep 1750 599251 704420725 := by
    rw [show (1800 : Nat) = 50 + 1750 from rfl, updateRep_add, adlerChunk46]
  have h47 : updateRep 1750 599251 704420725 = updateRep 1700 612001 734708400 := by
    rw [show (1750 : Nat) = 50 + 1700 from rfl, updateRep_add, adlerChunk47]
  have h48 : updateRep 1700 612001 734708400 = updateRep 1650 624751 765633575 := by
    rw [show (1700 : Nat) = 50 + 1650 from rfl, updateRep_add, adlerChunk48]
  have h49 : updateRep 1650 624751 765633575 = updateRep 1600 637501 797196250 := by
    rw [show (1650 : Nat) = 50 + 1600 from rfl, updateRep_add, adlerChunk49]
  have h50 : updateRep 1600 637501 797196250 = updateRep 1550 650251 829396425 := by
    rw [show (1600 : Nat) = 50 + 1550 from rfl, updateRep_add, adlerChunk50]
  have h51 : updateRep 1550 650251 829396425 = updateRep 1500 663001 862234100 := by
    rw [show (1550 : Nat) = 50 + 1500 from rfl, updateRep_add, adlerChunk51]
  have h52 : updateRep 1500 663001 862234100 = updateRep 1450 675751 895709275 := by
    rw [show (1500 : Nat) = 50 + 1450 from rfl, updateRep_add, adlerChunk52]
  have h53 : updateRep 1450 675751 895709275 = updateRep 1400 688501 929821950 := by
    rw [show (1450 : Nat) = 50 + 1400 from rfl, updateRep_add, adlerChunk53]
  have h54 : updateRep 1400 688501 929821950 = updateRep 1350 701251 964572125 := by
    rw [show (1400 : Nat) = 50 + 1350 from rfl, updateRep_add, adlerChunk54]
  have h55 : updateRep 1350 701251 964572125 = updateRep 1300 714001 999959800 := by
    rw [show (1350 : Nat) = 50 + 1300 from rfl, updateRep_add, adlerChunk55]
  have h56 : updateRep 1300 714001 999959800 = updateRep 1250 726751 1035984975 := by
    rw [show (1300 : Nat) = 50 + 1250 from rfl, updateRep_add, adlerChunk56]
  have h57 : updateRep 1250 726751 1035984975 = updateRep 1200 739501 1072647650 := by
    rw [show (1250 : Nat) = 50 + 1200 from rfl, updateRep_add, adlerChunk57]
  have h58 : updateRep 1200 739501 1072647650 = updateRep 1150 752251 1109947825 := by
    rw [show (1200 : Nat) = 50 + 1150 from rfl, updateRep_add, adlerChunk58]
  have h59 : updateRep 1150 752251 1109947825 = updateRep 1100 765001 1147885500 := by
    rw [show (1150 : Nat) = 50 + 1100 from rfl, updateRep_add, adlerChunk59]
  have h60 : updateRep 1100 765001 1147885500 = updateRep 1050 777751 1186460675 := by
    rw [show (1100 : Nat) = 50 + 1050 from rfl, updateRep_add, adlerChunk60]
  have h61 : updateRep 1050 777751 1186460675 = updateRep 1000 790501 1225673350 := by
    rw [show (1050 : Nat) = 50 + 1000 from rfl, updateRep_add, adlerChunk61]
  have h62 : updateRep 1000 790501 1225673350 = updateRep 950 803251 1265523525 := by
    rw [show (1000 : Nat) = 50 + 950 from rfl, updateRep_add, adlerChunk62]
  have h63 : updateRep 950 803251 1265523525 = updateRep 900 816001 1306011200 := by
    rw [show (950 : Nat) = 50 + 900 from rfl, updateRep_add, adlerChunk63]
  have h64 : updateRep 900 816001 1306011200 = updateRep 850 828751 1347136375 := by
    rw [show (900 : Nat) = 50 + 850 from rfl, updateRep_add, adlerChunk64]
  have h65 : updateRep 850 828751 1347136375 = updateRep 800 841501 1388899050 := by
    rw [show (850 : Nat) = 50 + 800 from rfl, updateRep_add, adlerChunk65]
  have h66 : updateRep 800 841501 1388899050 = updateRep 750 854251 1431299225 := by
    rw [show (800 : Nat) = 50 + 750 from rfl, updateRep_add, adlerChunk66]
  have h67 : updateRep 750 854251 1431299225 = updateRep 700 867001 1474336900 := by
    rw [show (750 : Nat) = 50 + 700 from rfl, updateRep_add, adlerChunk67]
  have h68 : updateRep 700 867001 1474336900 = updateRep 650 879751 1518012075 := by
    rw [show (700 : Nat) = 50 + 650 from rfl, updateRep_add, adlerChunk68]
  have h69 : updateRep 650 879751 1518012075 = updateRep 600 892501 1562324750 := by
    rw [show (650 : Nat) = 50 + 600 from rfl, updateRep_add, adlerChunk69]
  have h70 : updateRep 600 892501 1562324750 = updateRep 550 905251 1607274925 := by
    rw [show (600 : Nat) = 50 + 550 from rfl, updateRep_add, adlerChunk70]
  have h71 : updateRep 550 905251 1607274925 = updateRep 500 918001 1652862600 := by
    rw [show (550 : Nat) = 50 + 500 from rfl, updateRep_add, adlerChunk71]
  have h72 : updateRep 500 918001 1652862600 = updateRep 450 930751 1699087775 := by
    rw [show (500 : Nat) = 50 + 450 from rfl, updateRep_add, adlerChunk72]
  have h73 : updateRep 450 930751 1699087775 = updateRep 400 943501 1745950450 := by
    rw [show (450 : Nat) = 50 + 400 from rfl, updateRep_add, adlerChunk73]
  have h74 : updateRep 400 943501 1745950450 = updateRep 350 956251 1793450625 := by
    rw [show (400 : Nat) = 50 + 350 from rfl, updateRep_add, adlerChunk74]
  have h75 : updateRep 350 956251 1793450625 = updateRep 300 969001 1841588300 := by
    rw [show (350 : Nat) = 50 + 300 from rfl, updateRep_add, adlerChunk75]
  have h76 : updateRep 300 969001 1841588300 = updateRep 250 981751 1890363475 := by
    rw [show (300 : Nat) = 50 + 250 from rfl, updateRep_add, adlerChunk76]
  have h77 : updateRep 250 981751 1890363475 = updateRep 200 994501 1939776150 := by
    rw [show (250 : Nat) = 50 + 200 from rfl, updateRep_add, adlerChunk77]
  have h78 : updateRep 200 994501 1939776150 = updateRep 150 1007251 1989826325 := by
    rw [show (200 : Nat) = 50 + 150 from rfl, updateRep_add, adlerChunk78]
  have h79 : updateRep 150 1007251 1989826325 = updateRep 100 1020001 2040514000 := by
    rw [show (150 : Nat) = 50 + 100 from rfl, updateRep_add, adlerChunk79]
  have h80 : updateRep 100 1020001 2040514000 = updateRep 50 1032751 2091839175 := by
    rw [show (100 : Nat) = 50 + 50 from rfl, updateRep_add, adlerChunk80]
  rw [h0, h1, h2, h3, h4, h5, h6, h7, h8, h9, h10, h11, h12, h13, h14, h15, h16, h17, h18, h19, h20, h21, h22, h23, h24, h25, h26, h27, h28, h29, h30, h31, h32, h33, h34, h35, h36, h37, h38, h39, h40, h41, h42, h43, h44, h45, h46, h47, h48, h49, h50, h51, h52, h53, h54, h55, h56, h57, h58, h59, h60, h61, h62, h63, h64, h65, h66, h67, h68, h69, h70, h71, h72, h73, h74, h75, h76, h77, h78, h79, h80, adlerChunk81]

/-- The failing input for the rolling-hash equivalence: a window of 4104
bytes of value 255 followed by a single 0 byte, rolled once. -/
def badData : List Nat := List.replicate 4104 255 ++ [0]

/-- State of the accumulators after loading the full 4104-byte window. -/
theorem adlerLoad : updateRep 4104 1 0 = (63706, 11461) := by
  rw [show (4104 : Nat) = 4100 + 4 from rfl, updateRep_add, adler4100]
  decide

/-- Scratch accumulators over the shifted window (4103 bytes of 255, then 0). -/
theorem adlerScratch :
    update 1 0 (List.replicate 4103 255 ++ [0]) = (63451, 11206) := by
  rw [show List.replicate 4103 (255 : Nat) = List.replicate 4100 255 ++ List.replicate 3 255 from
        List.replicate_add 4100 3 255,
      List.append_assoc, update_append,
      show update 1 0 (List.replicate 4100 255) = (1045501, 2143801850) from adler4100]
  decide

/-- C3: the claimed equivalence between the O(1) rolling update and full
recomputation fails on the code: for window size 4104 over the byte
sequence `255 × 4104 ++ [0]`, a single `Roll32` step yields a `Sum32`
different from the Adler-32 of the shifted window computed from scratch
(the deferred reduction modulo 65521 interacts with `uint32` wraparound). -/
theorem c3_rolling_equivalence_fails :
    Sum32 (rollStates badData 4104 1) ≠ Checksum ((badData.drop 1).take 4104) := by
  have hlen : (List.replicate 4104 (255 : Nat)).length = 4104 :=
    List.length_replicate 4104 255
  have htake : badData.take 4104 = List.replicate 4104 (255 : Nat) :=
    List.take_left' hlen
  have hcons : badData = 255 :: (List.replicate 4103 (255 : Nat) ++ [0]) := by
    unfold badData
    rw [show (4104 : Nat) = 4103 + 1 from rfl, show List.replicate (4103 + 1) (255 : Nat) =
      255 :: List.replicate 4103 255 from List.replicate_succ 255 4103, List.cons_append]
  have hlen2 : (List.replicate 4103 (255 : Nat) ++ [0]).length ≤ 4104 := by
    rw [List.length_append, List.length_replicate]
    exact Nat.le_refl 4104
  have hdrop : (badData.drop 1).take 4104 = List.replicate 4103 (255 : Nat) ++ [0] := by
    rw [hcons, List.drop_one, List.tail_cons, List.take_of_length_le hlen2]
  have hget : badData.getD 4104 0 = 0 := by
    unfold badData
    rw [List.getD_append_right _ _ _ _ (le_of_eq hlen), hlen]
    rfl
  have hget0 : badData.getD 0 0 = 255 := by
    rw [hcons]
    rfl
  rw [hdrop, show rollStates badData 4104 1 =
      Roll32 (Write NewRollingAdler32 (badData.take 4104)) 4104 (badData.getD 0 0)
        (badData.getD 4104 0) from rfl,
    htake, hget, hget0,
    show Write NewRollingAdler32 (List.replicate 4104 (255 : Nat)) = (63706, 11461) from adlerLoad,
    show Checksum (List.replicate 4103 (255 : Nat) ++ [0]) =
      finish (update 1 0 (List.replicate 4103 255 ++ [0])).1
        (update 1 0 (List.replicate 4103 255 ++ [0])).2 from rfl,
    adlerScratch]
  decide

/-! ### Errors

Go reports errors as strings made with `fmt.Errorf`; the distinct error
sites are modelled as constructors so that theorems can tell them apart. -/

/-- Error values of the fingerprint reader and the naive diff engine. -/
inductive Err where
  | eof : Err
  | inband : List Nat → Err
  | attrExpected : List Nat → List Nat → Err
  | headerMismatch : List Nat → List Nat → List Nat → Err
  | parseFail : List Nat → Err
  | localHeader : Err → Err
  | remoteHeader : Err → Err
  | diffBuild : Err → Err
  | noDiffs : Err
  | localHash : Err → Err
  | remoteHash : Err → Err
  | notValid : Err
  | illegalFilename : Err
deriving DecidableEq

deriving instance DecidableEq for Except

/-! ### Fingerprint stream reading (`readString` / `readAttribute` / `readHeader`) -/

/-- The Go `readString`: read one line (error at EOF), fail on an in-band
`Error:` marker, otherwise return the line trimmed of spaces and newlines. -/
def readString (s : List Nat) : Except Err (List Nat × List Nat) :=
  match splitLine s with
  | none => .error .eof
  | some (line, rest) =>
    if startsWith errMarker line then .error (.inband line)
    else .ok (trimBytes line, rest)

/-- The Go `readAttribute`: read a line and require the `name:` prefix,
returning the trimmed remainder after the colon. -/
def readAttribute (name : List Nat) (s : List Nat) : Except Err (List Nat × List Nat) :=
  match readString s with
  | .error e => .error e
  | .ok (data, rest) =>
    if startsWith (name ++ [58]) data then
      .ok (trimBytes (data.drop (name.length + 1)), rest)
    else .error (.attrExpected name data)

/-- Read one decimal digit byte. -/
def decDigit (c : Nat) : Option Nat :=
  if 48 ≤ c ∧ c ≤ 57 then some (c - 48) else none

/-- Accumulating parse of a decimal digit string. -/
def parseDecCore : List Nat → Nat → Option Nat
  | [], acc => some acc
  | c :: r, acc =>
    match decDigit c with
    | none => none
    | some d => parseDecCore r (acc * 10 + d)

/-- Model of `strconv.ParseInt(s, 10, 64)` restricted to the canonical
non-negative digit-only form that the fingerprint writer emits. -/
def parseDec (s : List Nat) : Except Err Nat :=
  if s = [] then .error (.parseFail s)
  else
    match parseDecCore s 0 with
    | none => .error (.parseFail s)
    | some n => .ok n

/-- Decimal byte representation of a natural number, as `fmt.Sprintf("%v", n)`. -/
def natToDec (n : Nat) : List Nat :=
  if h : n < 10 then [48 + n]
  else natToDec (n / 10) ++ [48 + n % 10]
decreasing_by
  exact Nat.div_lt_self (Nat.pos_of_ne_zero (by omega)) (by omega)

/-- The Go `readInt64Attribute`: read a named attribute and parse its value. -/
def readInt64Attribute (name : List Nat) (s : List Nat) : Except Err (Nat × List Nat) :=
  match readAttribute name s with
  | .error e => .error e
  | .ok (line, rest) =>
    match parseDec line with
    | .error e => .error e
    | .ok n => .ok (n, rest)

/-- Bytes of the attribute name "Version". -/
def versionName : List Nat := [86, 101, 114, 115, 105, 111, 110]

/-- Bytes of the attribute name "Filename". -/
def filenameName : List Nat := [70, 105, 108, 101, 110, 97, 109, 101]

/-- Bytes of the attribute name "Slice". -/
def sliceName : List Nat := [83, 108, 105, 99, 101]

/-- Bytes of the attribute name "Slice Hashing". -/
def sliceHashingName : List Nat := [83, 108, 105, 99, 101, 32, 72, 97, 115, 104, 105, 110, 103]

/-- Bytes of the attribute name "Length". -/
def lengthName : List Nat := [76, 101, 110, 103, 116, 104]

/-- Model of Go's `filepath.Base` for slash-separated paths. -/
def filepathBase (p : List Nat) : List Nat :=
  if p = [] then [46]
  else
    let q := (p.reverse.dropWhile (fun c => c = 47)).reverse
    if q = [] then [47]
    else (q.reverse.takeWhile (fun c => c ≠ 47)).reverse

/-- The Go `readHeader`: check the four fixed header attributes against
their expected values in order, then parse and return the `Length` value
together with the unread remainder of the stream. -/
def readHeader (s : List Nat) (filename : List Nat) (slice : Nat) :
    Except Err (Nat × List Nat) :=
  match readAttribute versionName s with
  | .error e => .error e
  | .ok (v, s1) =>
  if v ≠ versionBytes then .error (.headerMismatch versionName versionBytes v)
  else
  match readAttribute filenameName s1 with
  | .error e => .error e
  | .ok (f, s2) =>
  if f ≠ filepathBase filename then .error (.headerMismatch filenameName (filepathBase filename) f)
  else
  match readAttribute sliceName s2 with
  | .error e => .error e
  | .ok (sl, s3) =>
  if sl ≠ natToDec slice then .error (.headerMismatch sliceName (natToDec slice) sl)
  else
  match readAttribute sliceHashingName s3 with
  | .error e => .error e
  | .ok (sh, s4) =>
  if sh ≠ sliceHasherName then .error (.headerMismatch sliceHashingName sliceHasherName sh)
  else readInt64Attribute lengthName s4

/-! ### Fingerprint writer (`hashDump`)

The slice hasher is `complexHash` = rolling Adler-32 (4 bytes, big endian)
followed by MD5 (16 bytes); MD5 and SHA-1 are external library primitives,
so they enter the model as function parameters. The writer streams each
slice through both the slice hasher and the whole-file hasher, so the
whole-file digest is taken over the concatenation of the slices, which
equals the file content (`chunkify_join` below). -/

/-- The standard base64 alphabet as byte values. -/
def b64Alphabet : List Nat :=
  [65, 66, 67, 68, 69, 70, 71, 72, 73, 74, 75, 76, 77, 78, 79, 80, 81, 82,
   83, 84, 85, 86, 87, 88, 89, 90,
   97, 98, 99, 100, 101, 102, 103, 104, 105, 106, 107, 108, 109, 110, 111,
   112, 113, 114, 115, 116, 117, 118, 119, 120, 121, 122,
   48, 49, 50, 51, 52, 53, 54, 55, 56, 57, 43, 47]

/-- Byte of the base64 alphabet character for a sextet. -/
def b64char (n : Nat) : Nat := b64Alphabet.getD n 65

/-- Encode one full 3-byte group into 4 base64 characters. -/
def enc3 (x y z : Nat) : List Nat :=
  [b64char (x / 4), b64char (x % 4 * 16 + y / 16), b64char (y % 16 * 4 + z / 64), b64char (z % 64)]

/-- Standard base64 encoding with `=` padding (`base64.StdEncoding.EncodeToString`). -/
def b64encode : List Nat → List Nat
  | [] => []
  | [x] => [b64char (x / 4), b64char (x % 4 * 16), 61, 61]
  | [x, y] => [b64char (x / 4), b64char (x % 4 * 16 + y / 16), b64char (y % 16 * 4), 61]
  | x :: y :: z :: rest => enc3 x y z ++ b64encode rest

/-- The 4 big-endian bytes of the rolling hash's `Sum(nil)` over `data`. -/
def adlerSumBytes (data : List Nat) : List Nat :=
  [Checksum data / 16777216 % 256, Checksum data / 65536 % 256,
   Checksum data / 256 % 256, Checksum data % 256]

/-- The `complexHash` slice digest: rolling Adler-32 bytes, then the MD5
digest of the same bytes (MD5 abstracted as `md5fn`). -/
def sliceDigest (md5fn : List Nat → List Nat) (data : List Nat) : List Nat :=
  adlerSumBytes data ++ md5fn data

/-- Lower-case hex digit byte, as `fmt.Sprintf("%x", ...)` uses. -/
def hexDigit (n : Nat) : Nat := if n < 10 then 48 + n else 87 + n

/-- Two hex digit bytes of one byte value. -/
def hexByte (b : Nat) : List Nat := [hexDigit (b / 16 % 16), hexDigit (b % 16)]

/-- Hex encoding of a byte list. -/
def hexEncode (bs : List Nat) : List Nat := (bs.map hexByte).flatten

/-- Split `data` into consecutive slices of `slice` bytes (last possibly
short), following the writer's `toread` loop. -/
def chunkify (slice : Nat) (data : List Nat) : List (List Nat) :=
  match data with
  | [] => []
  | c :: r =>
    if slice = 0 then []
    else (c :: r).take slice :: chunkify slice ((c :: r).drop slice)
termination_by data.length
decreasing_by
  simp only [List.length_drop, List.length_cons]
  omega

/-- The slice-hash lines of the dump body: one base64 line per slice. -/
def hashBodyLines (md5fn : List Nat → List Nat) (slice : Nat) (content : List Nat) :
    List (List Nat) :=
  (chunkify slice content).map (fun c => b64encode (sliceDigest md5fn c))

/-- The whole-file total line `sha1: <hex>`. -/
def totalLine (sha1fn : List Nat → List Nat) (content : List Nat) : List Nat :=
  sha1Name ++ [58, 32] ++ hexEncode (sha1fn content)

/-- The five header lines written by `hashDump`, in order. -/
def headerLines (filename : List Nat) (slice : Nat) (size : Nat) : List (List Nat) :=
  [versionName ++ [58, 32] ++ versionBytes,
   filenameName ++ [58, 32] ++ filepathBase filename,
   sliceName ++ [58, 32] ++ natToDec slice,
   sliceHashingName ++ [58, 32] ++ sliceHasherName,
   lengthName ++ [58, 32] ++ natToDec size]

/-- All lines of a successful `hashDump` run: header, then (for non-empty
files) the slice hashes and the total line. -/
def hashDumpLines (md5fn sha1fn : List Nat → List Nat) (filename : List Nat)
    (slice : Nat) (content : List Nat) : List (List Nat) :=
  headerLines filename slice content.length ++
    (if content.length = 0 then []
     else hashBodyLines md5fn slice content ++ [totalLine sha1fn content])

/-- Flatten lines into the byte stream: each line is written with a
terminating newline. -/
def joinLines (ls : List (List Nat)) : List Nat :=
  ls.foldr (fun l acc => l ++ nl :: acc) []

/-- The byte stream `hashDump` writes for a readable file with the given
content (reads succeed; the failing-read variant is `hashDumpFail` below). -/
def hashDump (md5fn sha1fn : List Nat → List Nat) (filename : List Nat)
    (slice : Nat) (content : List Nat) : List Nat :=
  joinLines (hashDumpLines md5fn sha1fn filename slice content)

/-- The byte stream `hashDump` writes when the `io.CopyN` of slice number
`k` fails with error text `msg`: the slice lines before `k`, then the
in-band `Error:` line, and nothing after it. -/
def hashDumpFail (md5fn : List Nat → List Nat) (filename : List Nat)
    (slice : Nat) (content : List Nat) (k : Nat) (msg : List Nat) : List Nat :=
  joinLines (headerLines filename slice content.length ++
    (hashBodyLines md5fn slice content).take k ++ [errMarker ++ msg])

/-! ### Naive diff engine (`Diff`, `Diffs`, `diffsBuilder`, `NaiveDiffs`)

The builder consumes the two fingerprint streams after their headers were
read; the streams are passed in as byte lists. The `int64` offsets, sizes
and lengths of the Go code are modelled over `Nat`; all values handled by
the claims are non-negative. -/

/-- One segment of the reconstruction plan. -/
structure Diff where
  Offset : Nat
  Size : Nat
  Different : Bool
deriving DecidableEq

/-- The diff result record (string members as byte lists). -/
structure Diffs where
  Server : List Nat
  Filename : List Nat
  Alike : List Nat
  Slice : Nat
  Size : Nat
  Differences : Nat
  Diffs : List Diff
  Hash : List Nat
  AlikeHash : List Nat
deriving DecidableEq

/-- The Go `NewDiffs` constructor. -/
def NewDiffs (server filename alike : List Nat) (slice size : Nat) : Diffs :=
  ⟨server, filename, alike, slice, size, 0, [], [], []⟩

/-- Assignment `diffs.Diffs[len(diffs.Diffs)-1].Size = sz` on the plan list
(the Go code only performs it on non-empty plans). -/
def setLastSize (l : List Diff) (sz : Nat) : List Diff :=
  match l with
  | [] => []
  | [d] => [{ d with Size := sz }]
  | d :: rest => d :: setLastSize rest sz

/-- Consuming a line strictly shortens the stream. -/
theorem splitLine_shrinks :
    ∀ {s l r : List Nat}, splitLine s = some (l, r) → r.length < s.length := by
  intro s
  induction s with
  | nil => intro l r h; simp [splitLine] at h
  | cons c rest ih =>
    intro l r h
    simp only [splitLine] at h
    by_cases hc : c = nl
    · rw [if_pos hc] at h
      simp only [Option.some.injEq, Prod.mk.injEq] at h
      obtain ⟨-, rfl⟩ := h
      simp
    · rw [if_neg hc] at h
      cases hsp : splitLine rest with
      | none => rw [hsp] at h; simp at h
      | some p =>
        rw [hsp] at h
        simp only [Option.some.injEq, Prod.mk.injEq] at h
        obtain ⟨-, rfl⟩ := h
        have := ih (l := p.1) (r := p.2) (by rw [hsp])
        simp only [List.length_cons]
        omega

/-- A successful `readString` strictly shortens the stream. -/
theorem readString_shrinks {s l r : List Nat} (h : readString s = .ok (l, r)) :
    r.length < s.length := by
  unfold readString at h
  cases hsp : splitLine s with
  | none => rw [hsp] at h; exact absurd h (by simp)
  | some p =>
    rw [hsp] at h
    by_cases he : startsWith errMarker p.1
    · simp [he] at h
    · simp only [he, if_false, Except.ok.injEq, Prod.mk.injEq] at h
      obtain ⟨-, rfl⟩ := h
      exact splitLine_shrinks (l := p.1) (r := p.2) (by rw [hsp])

/-- The `for` loop of `diffsBuilder`: one iteration per slice position,
reading one hash line from each stream and maintaining the open segment.
Returns the plan, the accumulated `Differences`, the final `pos` and
`start`, the final `indiff` flag and the unread stream remainders. -/
def diffsBuilderLoop (slice endp : Nat) (ls rs : List Nat) (indiff : Bool)
    (start pos : Nat) (plan : List Diff) (differences : Nat) :
    Except Err (List Diff × Nat × Nat × Nat × Bool × List Nat × List Nat) :=
  if h : pos < endp then
    let segment := if endp < pos + slice then endp - pos else slice
    match hls : readString ls with
    | .error e => .error e
    | .ok (localHash, ls1) =>
      match readString rs with
      | .error e => .error e
      | .ok (remoteHash, rs1) =>
        if indiff = false ∧ localHash ≠ remoteHash then
          let plan1 := if plan = [] ∧ 0 < pos then plan ++ [⟨start, 0, false⟩] else plan
          let plan2 := if plan1 = [] then plan1 else setLastSize plan1 (pos - start)
          diffsBuilderLoop slice endp ls1 rs1 true pos (pos + segment)
            (plan2 ++ [⟨pos, 0, true⟩]) (differences + segment)
        else if indiff = true ∧ localHash = remoteHash then
          diffsBuilderLoop slice endp ls1 rs1 false pos (pos + segment)
            (setLastSize plan (pos - start) ++ [⟨pos, 0, false⟩])
            (differences + (pos - start))
        else
          diffsBuilderLoop slice endp ls1 rs1 indiff start (pos + segment) plan differences
  else .ok (plan, differences, pos, start, indiff, ls, rs)
termination_by ls.length
decreasing_by
  all_goals exact readString_shrinks hls

/-- The Go `diffsBuilder`: run the loop with `end = min(lsize, diffs.Size)`,
close the final segment (or record the whole compared range as one equal
segment), then append the trailing `Remote` segment when the local file is
shorter than the remote one. -/
def diffsBuilder (d : Diffs) (ls rs : List Nat) (lsize : Nat) :
    Except Err (Diffs × List Nat × List Nat) :=
  match diffsBuilderLoop d.Slice (min lsize d.Size) ls rs false 0 0 [] 0 with
  | .error e => .error e
  | .ok (plan, differences, pos, start, _, ls1, rs1) =>
    let plan1 := if plan = [] then [⟨0, pos, false⟩] else setLastSize plan (pos - start)
    let d1 := { d with Diffs := plan1, Differences := d.Differences + differences }
    if lsize < d.Size then
      .ok ({ d1 with Diffs := d1.Diffs ++ [⟨lsize, d.Size - lsize, true⟩],
                     Differences := d1.Differences + (d.Size - lsize) }, ls1, rs1)
    else .ok (d1, ls1, rs1)

/-- The Go `NaiveDiffs` given the two fingerprint streams that its
`Hash` calls would open: read both headers, build the diffs, reject an
empty plan for a non-empty remote, then read both total hashes. -/
def NaiveDiffs (server filename alike : List Nat) (slice : Nat)
    (ls rs : List Nat) : Except Err Diffs :=
  match readHeader ls alike slice with
  | .error e => .error (.localHeader e)
  | .ok (lsize, ls1) =>
  match readHeader rs filename slice with
  | .error e => .error (.remoteHeader e)
  | .ok (rsize, rs1) =>
  match diffsBuilder (NewDiffs server filename alike slice rsize) ls1 rs1 lsize with
  | .error e => .error (.diffBuild e)
  | .ok (d, ls2, rs2) =>
  if 0 < d.Size ∧ d.Diffs = [] then .error .noDiffs
  else
  match readAttribute sha1Name ls2 with
  | .error e => .error (.localHash e)
  | .ok (alikeHash, _) =>
  match readAttribute sha1Name rs2 with
  | .error e => .error (.remoteHash e)
  | .ok (hash, _) =>
  .ok { d with AlikeHash := alikeHash, Hash := hash }

/-! ### Local range reader (`sliceFile`, `Dump`), path check (`calcpath`),
direct-download fallback, and fingerprint publication (`HashFile`). -/

/-- The `AUTOSIZE` constant (0). -/
def AUTOSIZE : Int := 0

/-- The Go `sliceFile`: compute the byte budget of the returned slice.
Lengths and offsets are `int64` in the source, so the model uses `Int`. -/
def sliceFile (max offset slice : Int) : Int :=
  if slice = AUTOSIZE ∨ max < offset + slice then max - offset else slice

/-- The effective length `n` returned by `LocalHashNDump.Dump`: the `N`
budget of the `LimitedReadCloser` built by `dump`. -/
def DumpLen (fileSize offset slice : Int) : Int :=
  sliceFile fileSize offset slice

/-- Resolution of `.` and `..` components performed by `filepath.Clean`
on an absolute path, on pre-split path components. -/
def cleanComps (comps : List (List Nat)) : List (List Nat) :=
  comps.foldl (fun acc c =>
    if c = [] ∨ c = [46] then acc
    else if c = [46, 46] then acc.dropLast
    else acc ++ [c]) []

/-- Render absolute path components back to a slash-separated byte string. -/
def renderAbs (comps : List (List Nat)) : List Nat :=
  if comps = [] then [47]
  else comps.foldl (fun acc c => acc ++ 47 :: c) []

/-- The Go `calcpath` given an absolute base directory `dir` and a relative
`filename`, both pre-split into components: clean the joined path, clean
the base, and accept iff `filepath.HasPrefix` (a plain string prefix test
on Unix) holds; otherwise panic with the `Unsafe` error, which `Dump`
recovers into an error return. -/
def calcpath (dir filename : List (List Nat)) : Except Err (List Nat) :=
  let fullpath := renderAbs (cleanComps (dir ++ filename))
  let fulldir := renderAbs (cleanComps dir)
  if startsWith fulldir fullpath then .ok fullpath else .error .illegalFilename

/-- The path `p` designates the base directory itself or a file below it. -/
def underBase (dir : List (List Nat)) (p : List Nat) : Prop :=
  p = renderAbs (cleanComps dir) ∨ startsWith (renderAbs (cleanComps dir) ++ [47]) p = true

/-- The `!exists(alike)` fallback branch of `Slicesync`: after the plain
`Download` of the remote file returns `downloaded` bytes, the function
builds `NewDiffs(server, filename, "", slice, downloaded)` and sets its
`Differences` to `downloaded`, returning it without any hash check. -/
def slicesyncDirect (server filename : List Nat) (slice downloaded : Nat) : Diffs :=
  let d := NewDiffs server filename [] slice downloaded
  { d with Differences := downloaded }

/-- Publication flow of `HashFile`: the dump bytes are written to the
temporary file, `done` is set to `true` unconditionally after `hashDump`
returns (`hashDump` has no error result), and the deferred `os.Rename`
publishes the temporary file exactly when `done` holds. The result is the
content of the published `.slicesync` file. -/
def HashFilePublish (dump : List Nat) : Option (List Nat) :=
  let done := true
  if done then some dump else none

/-- The Go `isHashFileValid`: the fingerprint file exists and its
modification time is not before the source file's. -/
def isHashFileValid (srcMtime : Nat) (fpMtime : Option Nat) : Bool :=
  match fpMtime with
  | none => false
  | some m => decide (¬ m < srcMtime)

/-- The serving path `LocalHashNDump.Hash`: when `isHashFileValid` accepts
the fingerprint it streams the published fingerprint bytes verbatim,
otherwise it fails with the "Hash dump not valid" error. -/
def localHashServe (srcMtime : Nat) (fpMtime : Option Nat) (fp : List Nat) :
    Except Err (List Nat) :=
  if isHashFileValid srcMtime fpMtime then .ok fp else .error .notValid

/-! ### Stream lemmas: how the reader consumes writer-produced lines. -/

theorem joinLines_cons (l : List Nat) (ls : List (List Nat)) :
    joinLines (l :: ls) = l ++ nl :: joinLines ls := rfl

theorem splitLine_append (l rest : List Nat) (h : nl ∉ l) :
    splitLine (l ++ nl :: rest) = some (l ++ [nl], rest) := by
  induction l with
  | nil => simp [splitLine]
  | cons c r ih =>
    have hc : c ≠ nl := fun hc => h (hc ▸ List.mem_cons_self c r)
    have hr : nl ∉ r := fun hm => h (List.mem_cons_of_mem c hm)
    simp only [List.cons_append, splitLine, List.append_eq, if_neg hc]
    rw [ih hr]

theorem startsWith_append_sole_nl (p l : List Nat) (hp : nl ∉ p) :
    startsWith p (l ++ [nl]) = startsWith p l := by
  induction p generalizing l with
  | nil => simp [startsWith]
  | cons c ps ih =>
    have hc : c ≠ nl := fun hc => hp (hc ▸ List.mem_cons_self c ps)
    have hps : nl ∉ ps := fun hm => hp (List.mem_cons_of_mem c hm)
    cases l with
    | nil =>
      simp only [List.nil_append, startsWith]
      have : (c = nl) = False := by simp [hc]
      simp [startsWith, this, hc]
    | cons d ds =>
      simp only [List.cons_append, startsWith, List.append_eq]
      rw [ih ds hps]

theorem readString_joinLines (l : List Nat) (ls : List (List Nat)) (h10 : nl ∉ l)
    (herr : startsWith errMarker l = false) :
    readString (joinLines (l :: ls)) = .ok (trimBytes l, joinLines ls) := by
  have h58 : nl ∉ errMarker := by decide
  have hta : ∀ t : List Nat, trimLeft (t ++ [nl]) =
      if trimLeft t = [] then [] else trimLeft t ++ [nl] := by
    intro t
    induction t with
    | nil => simp [trimLeft, isCut, nl]
    | cons c r ih =>
      by_cases hc : isCut c
      · simpa [trimLeft, hc] using ih
      · simp [trimLeft, hc]
  have htr : trimBytes (l ++ [nl]) = trimBytes l := by
    unfold trimBytes
    rw [hta l]
    by_cases h : trimLeft l = []
    · simp [h, trimLeft]
    · simp only [h, if_false]
      rw [List.reverse_append]
      simp [trimLeft, isCut, nl]
  simp only [readString, joinLines_cons, splitLine_append l _ h10,
    startsWith_append_sole_nl errMarker l h58, herr, Bool.false_eq_true, if_false, htr]

theorem trimLeft_id (l : List Nat) (h : ∀ c, l.head? = some c → isCut c = false) :
    trimLeft l = l := by
  cases l with
  | nil => rfl
  | cons c r =>
    have := h c rfl
    simp [trimLeft, this]

theorem trimBytes_id (l : List Nat)
    (hh : ∀ c, l.head? = some c → isCut c = false)
    (ht : ∀ c, l.getLast? = some c → isCut c = false) :
    trimBytes l = l := by
  unfold trimBytes
  rw [trimLeft_id l hh]
  rw [trimLeft_id l.reverse (by
    intro c hc
    exact ht c (by rwa [List.head?_reverse] at hc))]
  exact List.reverse_reverse l

theorem trimBytes_of_all (l : List Nat) (h : ∀ c ∈ l, isCut c = false) :
    trimBytes l = l := by
  refine trimBytes_id l ?_ ?_
  · intro c hc
    exact h c (List.mem_of_mem_head? hc)
  · intro c hc
    exact h c (List.mem_of_mem_getLast? hc)

theorem startsWith_self_append (p rest : List Nat) :
    startsWith p (p ++ rest) = true := by
  induction p with
  | nil => rfl
  | cons c ps ih => simp [startsWith, ih]

theorem startsWith_trans_append (p q l : List Nat) :
    startsWith p ((p ++ q) ++ l) = true := by
  rw [List.append_assoc]
  exact startsWith_self_append p (q ++ l)

theorem startsWith_of_prefix_append (p l : List Nat) (h : startsWith p l = true)
    (rest : List Nat) : startsWith p (l ++ rest) = true := by
  induction p generalizing l with
  | nil => rfl
  | cons c ps ih =>
    cases l with
    | nil => simp [startsWith] at h
    | cons d ds =>
      simp only [startsWith, Bool.and_eq_true, decide_eq_true_eq] at h
      simp only [List.cons_append, startsWith, Bool.and_eq_true, decide_eq_true_eq]
      exact ⟨h.1, ih ds h.2⟩

theorem startsWith_false_of_no_colon (p l : List Nat) (hp : 58 ∈ p)
    (hl : ∀ c ∈ l, c ≠ 58) : startsWith p l = false := by
  induction p generalizing l with
  | nil => simp at hp
  | cons c ps ih =>
    cases l with
    | nil => rfl
    | cons d ds =>
      simp only [startsWith, Bool.and_eq_false_iff]
      rcases List.mem_cons.1 hp with h58 | h58
      · left
        have : d ≠ 58 := hl d (List.mem_cons_self d ds)
        simp [← h58]
        omega
      · right
        exact ih ds h58 (fun c hc => hl c (List.mem_cons_of_mem d hc))

theorem readAttribute_line (name value : List Nat) (ls : List (List Nat))
    (hn10 : nl ∉ name) (hv10 : nl ∉ value) (hne : name ≠ []) (hvne : value ≠ [])
    (hnh : ∀ c, name.head? = some c → isCut c = false)
    (hvh : ∀ c, value.head? = some c → isCut c = false)
    (hvl : ∀ c, value.getLast? = some c → isCut c = false)
    (herr : startsWith errMarker (name ++ [58, 32] ++ value) = false) :
    readAttribute name (joinLines ((name ++ [58, 32] ++ value) :: ls)) =
      .ok (value, joinLines ls) := by
  have hsplit : name ++ [58, 32] ++ value = (name ++ [58]) ++ (32 :: value) := by
    simp
  have h10 : nl ∉ name ++ [58, 32] ++ value := by
    intro hm
    rcases List.mem_append.1 hm with hm | hm
    · rcases List.mem_append.1 hm with hm | hm
      · exact hn10 hm
      · simp [nl] at hm
    · exact hv10 hm
  have htrim : trimBytes (name ++ [58, 32] ++ value) = name ++ [58, 32] ++ value := by
    refine trimBytes_id _ ?_ ?_
    · intro c hc
      rw [List.head?_append_of_ne_nil (name ++ [58, 32]) (by simp [hne]),
        List.head?_append_of_ne_nil name hne] at hc
      exact hnh c hc
    · intro c hc
      rw [List.getLast?_append_of_ne_nil (name ++ [58, 32]) hvne] at hc
      exact hvl c hc
  have hpre : startsWith (name ++ [58]) (name ++ [58, 32] ++ value) = true := by
    rw [hsplit]
    exact startsWith_self_append _ _
  have hdrop : (name ++ [58, 32] ++ value).drop (name.length + 1) = 32 :: value := by
    rw [hsplit]
    have : (name ++ [58]).length = name.length + 1 := by simp
    rw [← this, List.drop_left]
  have htrim2 : trimBytes (32 :: value) = value := by
    unfold trimBytes
    rw [show trimLeft (32 :: value) = value from by
      simp only [trimLeft, isCut]
      rw [if_pos (by simp)]
      exact trimLeft_id value hvh]
    rw [trimLeft_id value.reverse (by
      intro c hc
      exact hvl c (by rwa [List.head?_reverse] at hc))]
    exact List.reverse_reverse value
  rw [readAttribute, readString_joinLines _ _ h10 herr, htrim]
  simp only [hpre, if_true, hdrop, htrim2]

theorem natToDec_digits : ∀ n : Nat, ∀ c ∈ natToDec n, 48 ≤ c ∧ c ≤ 57 := by
  intro n
  induction n using natToDec.induct with
  | case1 n h =>
    intro c hc
    rw [natToDec, dif_pos h] at hc
    simp at hc
    omega
  | case2 n h ih =>
    intro c hc
    rw [natToDec, dif_neg h] at hc
    rcases List.mem_append.1 hc with hm | hm
    · exact ih c hm
    · simp at hm
      have := Nat.mod_lt n (show 0 < 10 by omega)
      omega

theorem natToDec_ne_nil (n : Nat) : natToDec n ≠ [] := by
  rw [natToDec]
  split
  · simp
  · simp

theorem parseDecCore_append (xs ys : List Nat) (acc m : Nat)
    (h : parseDecCore xs acc = some m) :
    parseDecCore (xs ++ ys) acc = parseDecCore ys m := by
  induction xs generalizing acc with
  | nil =>
    simp [parseDecCore] at h
    simp [h]
  | cons c r ih =>
    simp only [parseDecCore, List.cons_append] at h ⊢
    cases hd : decDigit c with
    | none => rw [hd] at h; simp at h
    | some d =>
      rw [hd] at h
      exact ih _ h

theorem parseDecCore_natToDec : ∀ (n acc : Nat),
    parseDecCore (natToDec n) acc = some (acc * 10 ^ (natToDec n).length + n) := by
  intro n
  induction n using natToDec.induct with
  | case1 n h =>
    intro acc
    rw [natToDec, dif_pos h]
    simp only [parseDecCore, decDigit]
    rw [if_pos (by omega)]
    simp only [parseDecCore, List.length_cons, List.length_nil]
    congr 1
    omega
  | case2 n h ih =>
    intro acc
    rw [natToDec, dif_neg h]
    rw [parseDecCore_append _ _ _ _ (ih acc)]
    simp only [parseDecCore, decDigit]
    have hm : n % 10 < 10 := Nat.mod_lt n (by omega)
    rw [if_pos (by omega)]
    simp only [parseDecCore, List.length_append, List.length_cons, List.length_nil]
    congr 1
    have hdm := Nat.div_add_mod n 10
    have : 10 ^ ((natToDec (n / 10)).length + (0 + 1)) =
        10 ^ (natToDec (n / 10)).length * 10 := by
      rw [pow_succ]
    rw [this]
    ring_nf
    omega

theorem parseDec_natToDec (n : Nat) : parseDec (natToDec n) = .ok n := by
  rw [parseDec, if_neg (by simpa using natToDec_ne_nil n), parseDecCore_natToDec]
  simp

theorem b64char_props (n : Nat) : isCut (b64char n) = false ∧ b64char n ≠ 58 := by
  by_cases h : n < 64
  · have hb : ∀ m < 64, isCut (b64char m) = false ∧ b64char m ≠ 58 := by decide
    exact hb n h
  · have : b64char n = 65 := by
      unfold b64char
      rw [List.getD_eq_default]
      simpa [b64Alphabet] using Nat.le_of_not_lt h
    rw [this]
    exact ⟨rfl, by omega⟩

theorem b64encode_mem : ∀ (l : List Nat), ∀ c ∈ b64encode l,
    isCut c = false ∧ c ≠ 58 := by
  intro l
  induction l using b64encode.induct with
  | case1 =>
    intro c hc
    simp [b64encode] at hc
  | case2 x =>
    intro c hc
    simp only [b64encode, List.mem_cons, List.not_mem_nil, or_false] at hc
    rcases hc with h | h | h | h <;> first
    | exact h ▸ b64char_props _
    | exact h ▸ ⟨rfl, by omega⟩
  | case3 x y =>
    intro c hc
    simp only [b64encode, List.mem_cons, List.not_mem_nil, or_false] at hc
    rcases hc with h | h | h | h <;> first
    | exact h ▸ b64char_props _
    | exact h ▸ ⟨rfl, by omega⟩
  | case4 x y z rest ih =>
    intro c hc
    simp only [b64encode, enc3, List.mem_append, List.mem_cons, List.not_mem_nil,
      or_false] at hc
    rcases hc with h | h
    · rcases h with h | h | h | h <;> exact h ▸ b64char_props _
    · exact ih c h

theorem hexDigit_props (n : Nat) : 48 ≤ hexDigit n ∧ hexDigit n ≠ 58 := by
  unfold hexDigit
  split <;> omega

theorem hexEncode_mem : ∀ (bs : List Nat), ∀ c ∈ hexEncode bs,
    isCut c = false ∧ c ≠ 58 := by
  intro bs c hc
  unfold hexEncode at hc
  rw [List.mem_flatten] at hc
  obtain ⟨l, hl, hcl⟩ := hc
  rw [List.mem_map] at hl
  obtain ⟨b, -, rfl⟩ := hl
  unfold hexByte at hcl
  simp only [List.mem_cons, List.not_mem_nil, or_false] at hcl
  have h1 := hexDigit_props (b / 16 % 16)
  have h2 := hexDigit_props (b % 16)
  rcases hcl with h | h
  · subst h
    exact ⟨by simp only [isCut, Bool.or_eq_false_iff, decide_eq_false_iff_not]; omega, h1.2⟩
  · subst h
    exact ⟨by simp only [isCut, Bool.or_eq_false_iff, decide_eq_false_iff_not]; omega, h2.2⟩

theorem isCut_false_iff (c : Nat) : isCut c = false ↔ c ≠ 32 ∧ c ≠ 10 := by
  unfold isCut
  simp only [Bool.or_eq_false_iff, decide_eq_false_iff_not]

theorem readAttribute_line_plain (name value : List Nat) (ls : List (List Nat))
    (hn10 : nl ∉ name) (hne : name ≠ [])
    (hnh : ∀ c, name.head? = some c → isCut c = false)
    (hvne : value ≠ []) (hvp : ∀ c ∈ value, isCut c = false)
    (herr : startsWith errMarker (name ++ [58, 32] ++ value) = false) :
    readAttribute name (joinLines ((name ++ [58, 32] ++ value) :: ls)) =
      .ok (value, joinLines ls) := by
  refine readAttribute_line name value ls hn10 ?_ hne hvne hnh ?_ ?_ herr
  · intro hm
    have := (isCut_false_iff nl).1 (hvp nl hm)
    simp [nl] at this
  · intro c hc
    exact hvp c (List.mem_of_mem_head? hc)
  · intro c hc
    exact hvp c (List.mem_of_mem_getLast? hc)

theorem natToDec_plain (n : Nat) : ∀ c ∈ natToDec n, isCut c = false := by
  intro c hc
  have := natToDec_digits n c hc
  rw [isCut_false_iff]
  omega

/-- The header of a `hashDump` stream parses back to the file length, for
any basename with no newline byte and no leading or trailing space. -/
theorem readHeader_hashDump (md5fn sha1fn : List Nat → List Nat) (filename : List Nat)
    (slice : Nat) (content : List Nat)
    (hb10 : nl ∉ filepathBase filename) (hbne : filepathBase filename ≠ [])
    (hbh : ∀ c, (filepathBase filename).head? = some c → isCut c = false)
    (hbl : ∀ c, (filepathBase filename).getLast? = some c → isCut c = false) :
    readHeader (hashDump md5fn sha1fn filename slice content) filename slice =
      .ok (content.length,
        joinLines (if content.length = 0 then []
          else hashBodyLines md5fn slice content ++ [totalLine sha1fn content])) := by
  have hver : readAttribute versionName
      (joinLines ((versionName ++ [58, 32] ++ versionBytes) ::
        ((filenameName ++ [58, 32] ++ filepathBase filename) ::
          (sliceName ++ [58, 32] ++ natToDec slice) ::
          (sliceHashingName ++ [58, 32] ++ sliceHasherName) ::
          (lengthName ++ [58, 32] ++ natToDec content.length) ::
          (if content.length = 0 then []
            else hashBodyLines md5fn slice content ++ [totalLine sha1fn content])))) =
      .ok (versionBytes, _) :=
    readAttribute_line_plain _ _ _ (by decide) (by decide) (by decide) (by decide)
      (by decide) (by decide)
  have hfn : readAttribute filenameName
      (joinLines ((filenameName ++ [58, 32] ++ filepathBase filename) ::
        ((sliceName ++ [58, 32] ++ natToDec slice) ::
          (sliceHashingName ++ [58, 32] ++ sliceHasherName) ::
          (lengthName ++ [58, 32] ++ natToDec content.length) ::
          (if content.length = 0 then []
            else hashBodyLines md5fn slice content ++ [totalLine sha1fn content])))) =
      .ok (filepathBase filename, _) :=
    readAttribute_line _ _ _ (by decide) hb10 (by decide) hbne (by decide) hbh hbl
      (by simp [errMarker, filenameName, startsWith])
  have hsl : readAttribute sliceName
      (joinLines ((sliceName ++ [58, 32] ++ natToDec slice) ::
        ((sliceHashingName ++ [58, 32] ++ sliceHasherName) ::
          (lengthName ++ [58, 32] ++ natToDec content.length) ::
          (if content.length = 0 then []
            else hashBodyLines md5fn slice content ++ [totalLine sha1fn content])))) =
      .ok (natToDec slice, _) :=
    readAttribute_line_plain _ _ _ (by decide) (by decide) (by decide)
      (natToDec_ne_nil slice) (natToDec_plain slice)
      (by simp [errMarker, sliceName, startsWith])
  have hsh : readAttribute sliceHashingName
      (joinLines ((sliceHashingName ++ [58, 32] ++ sliceHasherName) ::
        ((lengthName ++ [58, 32] ++ natToDec content.length) ::
          (if content.length = 0 then []
            else hashBodyLines md5fn slice content ++ [totalLine sha1fn content])))) =
      .ok (sliceHasherName, _) :=
    readAttribute_line_plain _ _ _ (by decide) (by decide) (by decide) (by decide)
      (by decide) (by decide)
  have hlen : readAttribute lengthName
      (joinLines ((lengthName ++ [58, 32] ++ natToDec content.length) ::
        (if content.length = 0 then []
          else hashBodyLines md5fn slice content ++ [totalLine sha1fn content]))) =
      .ok (natToDec content.length, _) :=
    readAttribute_line_plain _ _ _ (by decide) (by decide) (by decide)
      (natToDec_ne_nil _) (natToDec_plain _)
      (by simp [errMarker, lengthName, startsWith])
  have hstream : hashDump md5fn sha1fn filename slice content =
      joinLines ((versionName ++ [58, 32] ++ versionBytes) ::
        ((filenameName ++ [58, 32] ++ filepathBase filename) ::
          (sliceName ++ [58, 32] ++ natToDec slice) ::
          (sliceHashingName ++ [58, 32] ++ sliceHasherName) ::
          (lengthName ++ [58, 32] ++ natToDec content.length) ::
          (if content.length = 0 then []
            else hashBodyLines md5fn slice content ++ [totalLine sha1fn content]))) := rfl
  rw [readHeader, hstream, hver]
  simp only [ne_eq, eq_self_iff_true, not_true_eq_false, Bool.false_eq_true, if_false,
    ite_false]
  rw [hfn]
  simp only [ne_eq, eq_self_iff_true, not_true_eq_false, Bool.false_eq_true, if_false,
    ite_false]
  rw [hsl]
  simp only [ne_eq, eq_self_iff_true, not_true_eq_false, Bool.false_eq_true, if_false,
    ite_false]
  rw [hsh]
  simp only [ne_eq, eq_self_iff_true, not_true_eq_false, Bool.false_eq_true, if_false,
    ite_false]
  rw [readInt64Attribute, hlen]
  simp only [parseDec_natToDec]

theorem chunkify_flatten (slice : Nat) (hs : 1 ≤ slice) (data : List Nat) :
    (chunkify slice data).flatten = data := by
  induction data using chunkify.induct slice with
  | case1 => simp [chunkify]
  | case2 c r hz =>
    omega
  | case3 c r hz ih =>
    rw [chunkify, if_neg hz]
    simp only [List.flatten_cons, ih]
    exact List.take_append_drop slice (c :: r)

theorem chunkify_length (slice : Nat) (hs : 1 ≤ slice) (data : List Nat) :
    (chunkify slice data).length = (data.length + slice - 1) / slice := by
  induction data using chunkify.induct slice with
  | case1 =>
    simp only [chunkify, List.length_nil]
    rw [Nat.div_eq_of_lt (by omega)]
  | case2 c r hz => omega
  | case3 c r hz ih =>
    rw [chunkify, if_neg hz]
    simp only [List.length_cons, ih, List.length_drop]
    rcases Nat.lt_or_ge (r.length + 1) slice with hlt | hge
    · have h0 : r.length + 1 - slice = 0 := by omega
      have h1 : r.length + 1 + slice - 1 = (r.length + 1 - 1) + slice := by omega
      have d1 : (0 + slice - 1) / slice = 0 := Nat.div_eq_of_lt (by omega)
      have d2 : (r.length + 1 - 1) / slice = 0 := Nat.div_eq_of_lt (by omega)
      rw [h0, h1, Nat.add_div_right _ (by omega), d1, d2]
    · have hx : r.length + 1 - slice + slice - 1 = r.length + 1 - 1 := by omega
      have h1 : r.length + 1 + slice - 1 = (r.length + 1 - 1) + slice := by omega
      rw [hx, h1, Nat.add_div_right _ (by omega)]

theorem hexEncode_ne_nil (bs : List Nat) (h : bs ≠ []) : hexEncode bs ≠ [] := by
  cases bs with
  | nil => exact absurd rfl h
  | cons b r => simp [hexEncode, hexByte]

theorem sliceDigest_length (md5fn : List Nat → List Nat)
    (hmd5 : ∀ s, (md5fn s).length = 16) (c : List Nat) :
    (sliceDigest md5fn c).length = 20 := by
  simp [sliceDigest, adlerSumBytes, hmd5]

/-- C5 (amended): the writer/reader round trip holds for every file and
every slice size S > 0 whose basename contains no newline and neither
starts nor ends with a space: parsing the fingerprint stream produced by
the writer succeeds with the expected basename and slice size, returns
`Length = |F|`, is followed by exactly `ceil(|F|/S)` base64-encoded 20-byte
slice-hash lines and one whole-file digest line carrying the hex SHA-1 of
exactly the file's bytes; for `|F| = 0` the slice and total lines are
absent. (The unrestricted claim fails: `readString` trims spaces, so a
basename with a trailing space never matches the header check, see the
counterexample.) -/
theorem c5_writer_reader_roundtrip
    (md5fn sha1fn : List Nat → List Nat)
    (hmd5 : ∀ s, (md5fn s).length = 16) (hsha : ∀ s, (sha1fn s).length = 20)
    (filename : List Nat) (slice : Nat) (hs : 1 ≤ slice) (content : List Nat)
    (hb10 : nl ∉ filepathBase filename) (hbne : filepathBase filename ≠ [])
    (hbh : ∀ c, (filepathBase filename).head? = some c → isCut c = false)
    (hbl : ∀ c, (filepathBase filename).getLast? = some c → isCut c = false) :
    readHeader (hashDump md5fn sha1fn filename slice content) filename slice =
      .ok (content.length,
        joinLines (if content.length = 0 then []
          else hashBodyLines md5fn slice content ++ [totalLine sha1fn content])) ∧
    (hashBodyLines md5fn slice content).length = (content.length + slice - 1) / slice ∧
    (∀ l ∈ hashBodyLines md5fn slice content,
      ∃ digest, digest.length = 20 ∧ l = b64encode digest) ∧
    readAttribute sha1Name (joinLines [totalLine sha1fn content]) =
      .ok (hexEncode (sha1fn content), []) ∧
    (chunkify slice content).flatten = content := by
  refine ⟨readHeader_hashDump md5fn sha1fn filename slice content hb10 hbne hbh hbl,
    ?_, ?_, ?_, chunkify_flatten slice hs content⟩
  · rw [hashBodyLines, List.length_map, chunkify_length slice hs]
  · intro l hl
    rw [hashBodyLines, List.mem_map] at hl
    obtain ⟨c, -, rfl⟩ := hl
    exact ⟨sliceDigest md5fn c, sliceDigest_length md5fn hmd5 c, rfl⟩
  · have hne : hexEncode (sha1fn content) ≠ [] := by
      refine hexEncode_ne_nil _ ?_
      intro h
      have := hsha content
      rw [h] at this
      simp at this
    have := readAttribute_line_plain sha1Name (hexEncode (sha1fn content)) []
      (by decide) (by decide) (by decide) hne
      (fun c hc => (hexEncode_mem _ c hc).1)
      (by simp [errMarker, sha1Name, startsWith])
    exact this

/-- C5 counterexample: for the one-byte file "A" named "x " (basename with
a trailing space) and slice 10, parsing the writer's own output fails with
a `Filename` header mismatch, because `readString` trims the trailing
space from the header line while `readHeader` compares against the
untrimmed basename. (MD5/SHA-1 are instantiated with constant functions;
the header check never reaches the hash lines.) -/
theorem c5_roundtrip_counterexample :
    readHeader (hashDump (fun _ => List.replicate 16 0) (fun _ => List.replicate 20 0)
      [120, 32] 10 [65]) [120, 32] 10 =
    .error (.headerMismatch filenameName [120, 32] [120]) := by decide

/-- C5 witness: the amended round trip evaluated on the two-byte file
[65, 66] with basename "f" and slice 1. -/
theorem c5_roundtrip_witness :
    readHeader (hashDump (fun _ => List.replicate 16 0) (fun _ => List.replicate 20 0)
      [102] 1 [65, 66]) [102] 1 =
      .ok (2, joinLines (hashBodyLines (fun _ => List.replicate 16 0) 1 [65, 66] ++
        [totalLine (fun _ => List.replicate 20 0) [65, 66]])) ∧
    (hashBodyLines (fun _ => List.replicate 16 0) 1 [65, 66]).length = 2 := by
  have h := c5_writer_reader_roundtrip (fun _ => List.replicate 16 0)
    (fun _ => List.replicate 20 0) (fun s => by simp) (fun s => by simp)
    [102] 1 (by decide) [65, 66] (by decide) (by decide) (by decide) (by decide)
  refine ⟨?_, ?_⟩
  · have h1 := h.1
    simpa using h1
  · have h2 := h.2.1
    simpa using h2

/-- C4 counterexample: in the missing-alike fallback with 60 downloaded
bytes, the returned `Diffs` value has an empty plan, not the single
segment `Remote(0, 60)` the claim states. -/
theorem c4_direct_download_counterexample :
    (slicesyncDirect [115] [102] 10 60).Diffs = [] ∧
    (slicesyncDirect [115] [102] 10 60).Diffs ≠ [⟨0, 60, true⟩] := by decide

/-- C4 (amended): when the alike file does not exist, `Slicesync` falls
back to a plain GET with no hash check and returns a `Diffs` value whose
plan is empty (`Diffs = []`), with both `Size` and `Differences` set to
the downloaded byte count, `Alike` cleared, and no hashes recorded. -/
theorem c4_direct_download_amended (server filename : List Nat) (slice downloaded : Nat) :
    (slicesyncDirect server filename slice downloaded).Diffs = [] ∧
    (slicesyncDirect server filename slice downloaded).Differences = downloaded ∧
    (slicesyncDirect server filename slice downloaded).Size = downloaded ∧
    (slicesyncDirect server filename slice downloaded).Alike = [] ∧
    (slicesyncDirect server filename slice downloaded).Hash = [] := by
  refine ⟨rfl, rfl, rfl, rfl, rfl⟩

/-- C6 counterexample: `Dump` with `offset = 100` past a 60-byte file and
`length = 0` (AUTOSIZE) reports effective length `-40`, not
`max(0, file_size - offset) = 0`; the reported length can be negative. -/
theorem c6_dump_length_counterexample :
    DumpLen 60 100 0 = -40 ∧ DumpLen 60 100 0 < 0 := by decide

/-- C6 (amended): whenever `length = 0` (AUTOSIZE) or `offset + length`
exceeds the file size, the effective length reported by the local `Dump`
equals `file_size - offset` (as a signed value, with no clamping at 0);
this coincides with `max(0, file_size - offset)` exactly when
`offset ≤ file_size`. -/
theorem c6_dump_length_amended (size offset slice : Int)
    (h : slice = 0 ∨ size < offset + slice) :
    DumpLen size offset slice = size - offset ∧
    (offset ≤ size → DumpLen size offset slice = max 0 (size - offset)) := by
  have he : DumpLen size offset slice = size - offset := by
    unfold DumpLen sliceFile AUTOSIZE
    rw [if_pos h]
  refine ⟨he, fun hle => ?_⟩
  rw [he]
  omega

/-- C6 witness: the amended statement evaluated at file size 60,
offset 20, AUTOSIZE. -/
theorem c6_dump_length_witness : DumpLen 60 20 0 = 40 :=
  (c6_dump_length_amended 60 20 0 (Or.inl rfl)).1

theorem startsWith_refl (l : List Nat) : startsWith l l = true := by
  induction l with
  | nil => rfl
  | cons c r ih => simp [startsWith, ih]

theorem startsWith_of_startsWith_append (p q l : List Nat)
    (h : startsWith (p ++ q) l = true) : startsWith p l = true := by
  induction p generalizing l with
  | nil => rfl
  | cons c ps ih =>
    cases l with
    | nil => simp [startsWith] at h
    | cons d ds =>
      simp only [List.cons_append, startsWith, Bool.and_eq_true] at h ⊢
      exact ⟨h.1, ih ds h.2⟩

/-- C7 counterexample: for base directory `/base` and requested filename
`../base2/x`, the canonicalized join is `/base2/x`, which does not lie
under `/base`, yet `calcpath` accepts it (no `Unsafe` failure), because
`filepath.HasPrefix` is a plain string-prefix test. -/
theorem c7_calcpath_counterexample :
    calcpath [[98, 97, 115, 101]] [[46, 46], [98, 97, 115, 101, 50], [120]] =
      .ok [47, 98, 97, 115, 101, 50, 47, 120] ∧
    ¬ underBase [[98, 97, 115, 101]] [47, 98, 97, 115, 101, 50, 47, 120] := by
  constructor
  · decide
  · unfold underBase
    decide

/-- C7 (amended): `calcpath` fails with the `Unsafe` error exactly when
the rendered base directory is not a string prefix of the rendered
canonical join; every path truly under the base is accepted, but a path
outside the base whose rendering merely extends the base string (such as
`/base2/x` for base `/base`) is accepted as well, so files outside the
base directory can be opened. -/
theorem c7_calcpath_amended (dir filename : List (List Nat)) :
    (underBase dir (renderAbs (cleanComps (dir ++ filename))) →
      calcpath dir filename = .ok (renderAbs (cleanComps (dir ++ filename)))) ∧
    (∀ res, calcpath dir filename = .ok res →
      res = renderAbs (cleanComps (dir ++ filename)) ∧
      startsWith (renderAbs (cleanComps dir)) res = true) ∧
    (startsWith (renderAbs (cleanComps dir)) (renderAbs (cleanComps (dir ++ filename))) = false →
      calcpath dir filename = .error .illegalFilename) := by
  refine ⟨?_, ?_, ?_⟩
  · intro hub
    unfold calcpath
    rcases hub with heq | hpre
    · rw [if_pos (by rw [heq]; exact startsWith_refl _)]
    · rw [if_pos (startsWith_of_startsWith_append _ [47] _ hpre)]
  · intro res h
    unfold calcpath at h
    by_cases hp : startsWith (renderAbs (cleanComps dir))
        (renderAbs (cleanComps (dir ++ filename))) = true
    · rw [if_pos hp] at h
      exact ⟨by injection h with h; exact h.symm, by
        injection h with h
        rw [h] at hp
        exact hp⟩
    · rw [if_neg hp] at h
      simp at h
  · intro hp
    unfold calcpath
    rw [if_neg (by rw [hp]; simp)]

/-- C7 witness: the amended statement evaluated at base `/base` and the
safe relative filename `x`, which is accepted, and at the escaping
filename `../etc` whose rendering does not extend `/base`, which fails
with the `Unsafe` error. -/
theorem c7_calcpath_witness :
    calcpath [[98, 97, 115, 101]] [[120]] = .ok [47, 98, 97, 115, 101, 47, 120] ∧
    calcpath [[98, 97, 115, 101]] [[46, 46], [101, 116, 99]] = .error .illegalFilename := by
  constructor
  · exact (c7_calcpath_amended [[98, 97, 115, 101]] [[120]]).1 (by unfold underBase; decide)
  · exact (c7_calcpath_amended [[98, 97, 115, 101]] [[46, 46], [101, 116, 99]]).2.2 (by decide)

/-- C9: when a read error interrupts `hashDump` mid-stream, the dump ends
with an in-band `Error:` line, yet `HashFile` still marks the dump done
and performs the atomic rename, so the error-marked fingerprint is
published under the shadow tree; once its modification time is at least
the source's, `isHashFileValid` accepts it and `LocalHashNDump.Hash`
serves it exactly like a complete fingerprint. -/
theorem c9_error_dump_published
    (md5fn : List Nat → List Nat) (filename : List Nat) (slice : Nat)
    (content : List Nat) (k : Nat) (msg : List Nat) (srcMtime pubMtime : Nat)
    (hfresh : srcMtime ≤ pubMtime) :
    HashFilePublish (hashDumpFail md5fn filename slice content k msg) =
      some (hashDumpFail md5fn filename slice content k msg) ∧
    isHashFileValid srcMtime (some pubMtime) = true ∧
    localHashServe srcMtime (some pubMtime)
      (hashDumpFail md5fn filename slice content k msg) =
      .ok (hashDumpFail md5fn filename slice content k msg) ∧
    (headerLines filename slice content.length ++
      ((hashBodyLines md5fn slice content).take k ++ [errMarker ++ msg])).getLast? =
      some (errMarker ++ msg) ∧
    startsWith errMarker (errMarker ++ msg) = true := by
  have hvalid : isHashFileValid srcMtime (some pubMtime) = true := by
    simp only [isHashFileValid, decide_eq_true_eq]
    omega
  refine ⟨rfl, hvalid, ?_, ?_, startsWith_self_append _ _⟩
  · unfold localHashServe
    rw [hvalid]
    rfl
  · rw [List.getLast?_append_of_ne_nil _ (by simp),
      List.getLast?_append_of_ne_nil _ (by simp)]
    rfl

/-- C9 witness: the statement evaluated on the one-byte file "A" with
slice 1, a failure at the first slice with message "x", source mtime 3
and publication mtime 5. -/
theorem c9_error_dump_published_witness :
    HashFilePublish (hashDumpFail (fun _ => List.replicate 16 0) [102] 1 [65] 0 [120]) =
      some (hashDumpFail (fun _ => List.replicate 16 0) [102] 1 [65] 0 [120]) ∧
    isHashFileValid 3 (some 5) = true := by
  have h := c9_error_dump_published (fun _ => List.replicate 16 0) [102] 1 [65] 0 [120]
    3 5 (by omega)
  exact ⟨h.1, h.2.1⟩

/-! ### Plan invariants (the P1-P5 properties of a `Diffs.Diffs` plan). -/

/-- Sum of the segment sizes of a plan. -/
def planSum (l : List Diff) : Nat := (l.map Diff.Size).sum

/-- P1 + P2: the first segment starts at `off` and consecutive segments
are contiguous. -/
def contiguousFrom : Nat → List Diff → Bool
  | _, [] => true
  | off, d :: rest => decide (d.Offset = off) && contiguousFrom (d.Offset + d.Size) rest

/-- P4: adjacent segments carry opposite `Different` flags. -/
def alternating : List Diff → Bool
  | [] => true
  | [_] => true
  | d1 :: d2 :: rest => decide (d1.Different ≠ d2.Different) && alternating (d2 :: rest)

/-- Every segment has a positive size. -/
def allPositive (l : List Diff) : Bool := l.all (fun d => decide (0 < d.Size))

theorem planSum_append (l1 l2 : List Diff) :
    planSum (l1 ++ l2) = planSum l1 + planSum l2 := by
  simp [planSum]

theorem contiguousFrom_concat (off : Nat) (l : List Diff) (d : Diff)
    (h : contiguousFrom off l = true) (hd : d.Offset = off + planSum l) :
    contiguousFrom off (l ++ [d]) = true := by
  induction l generalizing off with
  | nil =>
    simp only [List.nil_append, contiguousFrom, Bool.and_eq_true, decide_eq_true_eq]
    refine ⟨by simpa [planSum] using hd, trivial⟩
  | cons e r ih =>
    simp only [contiguousFrom, Bool.and_eq_true, decide_eq_true_eq] at h
    simp only [List.cons_append, contiguousFrom, Bool.and_eq_true, decide_eq_true_eq]
    refine ⟨h.1, ih _ h.2 ?_⟩
    rw [hd]
    simp [planSum, h.1]
    omega

theorem alternating_concat (l : List Diff) (d e : Diff)
    (h : alternating (l ++ [d]) = true) (hde : d.Different ≠ e.Different) :
    alternating ((l ++ [d]) ++ [e]) = true := by
  induction l with
  | nil =>
    simp only [List.nil_append, List.cons_append, alternating, Bool.and_eq_true,
      decide_eq_true_eq]
    exact ⟨hde, trivial⟩
  | cons f r ih =>
    cases r with
    | nil =>
      simp only [List.cons_append, List.nil_append, alternating, Bool.and_eq_true,
        decide_eq_true_eq] at h ⊢
      exact ⟨h.1, hde, trivial⟩
    | cons g t =>
      simp only [List.cons_append, alternating, Bool.and_eq_true, decide_eq_true_eq] at h ⊢
      exact ⟨h.1, by
        have := ih (by simpa using h.2)
        simpa using this⟩

theorem allPositive_append (l1 l2 : List Diff) :
    allPositive (l1 ++ l2) = (allPositive l1 && allPositive l2) := by
  simp [allPositive]

theorem setLastSize_append_singleton (l : List Diff) (d : Diff) (sz : Nat) :
    setLastSize (l ++ [d]) sz = l ++ [{ d with Size := sz }] := by
  induction l with
  | nil => rfl
  | cons e r ih =>
    cases r with
    | nil => rfl
    | cons f t =>
      calc setLastSize ((e :: f :: t) ++ [d]) sz
          = e :: setLastSize ((f :: t) ++ [d]) sz := rfl
        _ = e :: ((f :: t) ++ [{ d with Size := sz }]) := by rw [ih]
        _ = (e :: f :: t) ++ [{ d with Size := sz }] := rfl

theorem alternating_setLast (l : List Diff) (d : Diff) (sz : Nat)
    (h : alternating (l ++ [d]) = true) :
    alternating (l ++ [{ d with Size := sz }]) = true := by
  induction l with
  | nil => rfl
  | cons f r ih =>
    cases r with
    | nil =>
      simp only [List.cons_append, List.nil_append, alternating, Bool.and_eq_true,
        decide_eq_true_eq] at h ⊢
      exact ⟨h.1, trivial⟩
    | cons g t =>
      simp only [List.cons_append, alternating, Bool.and_eq_true, decide_eq_true_eq] at h ⊢
      exact ⟨h.1, by simpa using ih (by simpa using h.2)⟩

/-- The invariant maintained at every entry of `diffsBuilderLoop`. -/
def LoopInv (endp : Nat) (indiff : Bool) (start pos : Nat) (plan : List Diff) : Prop :=
  pos ≤ endp ∧
  ((plan = [] ∧ start = 0 ∧ indiff = false) ∨
   (∃ closed, plan = closed ++ [⟨start, 0, indiff⟩] ∧
      contiguousFrom 0 closed = true ∧ planSum closed = start ∧
      allPositive closed = true ∧ alternating plan = true ∧ start < pos))

/-- Unfolding `diffsBuilderLoop` at its exit condition. -/
theorem diffsBuilderLoop_step_exit (slice endp : Nat) (ls rs : List Nat) (indiff : Bool)
    (start pos : Nat) (plan : List Diff) (differences : Nat) (hpos : ¬ pos < endp) :
    diffsBuilderLoop slice endp ls rs indiff start pos plan differences =
      .ok (plan, differences, pos, start, indiff, ls, rs) := by
  rw [diffsBuilderLoop, dif_neg hpos]

/-- Unfolding `diffsBuilderLoop` when the local stream read fails. -/
theorem diffsBuilderLoop_step_lserr (slice endp : Nat) (ls rs : List Nat) (indiff : Bool)
    (start pos : Nat) (plan : List Diff) (differences : Nat) (hpos : pos < endp)
    (e : Err) (hls : readString ls = .error e) :
    diffsBuilderLoop slice endp ls rs indiff start pos plan differences = .error e := by
  rw [diffsBuilderLoop, dif_pos hpos]
  split <;>
  · split
    · rename_i e2 heq
      rw [hls] at heq
      injection heq with heq
      rw [heq]
    · rename_i a b heq
      rw [hls] at heq
      cases heq

/-- Unfolding `diffsBuilderLoop` when the remote stream read fails. -/
theorem diffsBuilderLoop_step_rserr (slice endp : Nat) (ls rs : List Nat) (indiff : Bool)
    (start pos : Nat) (plan : List Diff) (differences : Nat) (hpos : pos < endp)
    (lh ls1 : List Nat) (hls : readString ls = .ok (lh, ls1))
    (e : Err) (hrs : readString rs = .error e) :
    diffsBuilderLoop slice endp ls rs indiff start pos plan differences = .error e := by
  rw [diffsBuilderLoop, dif_pos hpos]
  split <;>
  · split
    · rename_i e2 heq
      rw [hls] at heq
      cases heq
    · rename_i a b heq
      rw [hls] at heq
      injection heq with heq
      injection heq with h1 h2
      subst h1 h2
      split
      · rename_i e2 heq2
        rw [hrs] at heq2
        injection heq2 with heq2
        rw [heq2]
      · rename_i c d heq2
        rw [hrs] at heq2
        cases heq2

/-- Unfolding one successful iteration of `diffsBuilderLoop`. -/
theorem diffsBuilderLoop_step_ok (slice endp : Nat) (ls rs : List Nat) (indiff : Bool)
    (start pos : Nat) (plan : List Diff) (differences : Nat) (hpos : pos < endp)
    (lh ls1 rh rs1 : List Nat)
    (hls : readString ls = .ok (lh, ls1)) (hrs : readString rs = .ok (rh, rs1)) :
    diffsBuilderLoop slice endp ls rs indiff start pos plan differences =
      (if indiff = false ∧ lh ≠ rh then
        diffsBuilderLoop slice endp ls1 rs1 true pos
          (pos + (if endp < pos + slice then endp - pos else slice))
          ((if (if plan = [] ∧ 0 < pos then plan ++ [⟨start, 0, false⟩] else plan) = []
            then (if plan = [] ∧ 0 < pos then plan ++ [⟨start, 0, false⟩] else plan)
            else setLastSize
              (if plan = [] ∧ 0 < pos then plan ++ [⟨start, 0, false⟩] else plan)
              (pos - start)) ++ [⟨pos, 0, true⟩])
          (differences + (if endp < pos + slice then endp - pos else slice))
      else if indiff = true ∧ lh = rh then
        diffsBuilderLoop slice endp ls1 rs1 false pos
          (pos + (if endp < pos + slice then endp - pos else slice))
          (setLastSize plan (pos - start) ++ [⟨pos, 0, false⟩])
          (differences + (pos - start))
      else
        diffsBuilderLoop slice endp ls1 rs1 indiff start
          (pos + (if endp < pos + slice then endp - pos else slice)) plan differences) := by
  rw [diffsBuilderLoop, dif_pos hpos]
  split
  case isTrue hc =>
    simp only [if_pos hc]
    split
    · rename_i e heq
      rw [hls] at heq
      cases heq
    · rename_i a b heq
      rw [hls] at heq
      injection heq with heq
      injection heq with h1 h2
      subst h1 h2
      split
      · rename_i e heq2
        rw [hrs] at heq2
        cases heq2
      · rename_i c d heq2
        rw [hrs] at heq2
        injection heq2 with heq2
        injection heq2 with h1 h2
        subst h1 h2
        rfl
  case isFalse hc =>
    simp only [if_neg hc]
    split
    · rename_i e heq
      rw [hls] at heq
      cases heq
    · rename_i a b heq
      rw [hls] at heq
      injection heq with heq
      injection heq with h1 h2
      subst h1 h2
      split
      · rename_i e heq2
        rw [hrs] at heq2
        cases heq2
      · rename_i c d heq2
        rw [hrs] at heq2
        injection heq2 with heq2
        injection heq2 with h1 h2
        subst h1 h2
        rfl

/-- The loop preserves `LoopInv` and exits exactly at `endp` (stated with a
bound on the stream length for the induction). -/
theorem diffsBuilderLoop_invariant_aux (slice endp : Nat) (hs : 1 ≤ slice) :
    ∀ (n : Nat) (ls rs : List Nat), ls.length ≤ n →
    ∀ (indiff : Bool) (start pos : Nat) (plan : List Diff) (differences : Nat)
      (plan' : List Diff) (differences' pos' start' : Nat) (indiff' : Bool)
      (ls' rs' : List Nat),
      diffsBuilderLoop slice endp ls rs indiff start pos plan differences =
        .ok (plan', differences', pos', start', indiff', ls', rs') →
      LoopInv endp indiff start pos plan →
      pos' = endp ∧ LoopInv endp indiff' start' pos' plan' := by
  intro n
  induction n with
  | zero =>
    intro ls rs hlen indiff start pos plan differences
    intro plan' differences' pos' start' indiff' ls' rs' h hinv
    have hnil : ls = [] := List.length_eq_zero.1 (Nat.le_zero.1 hlen)
    subst hnil
    by_cases hpos : pos < endp
    · rw [diffsBuilderLoop_step_lserr slice endp [] rs indiff start pos plan differences
        hpos Err.eof rfl] at h
      cases h
    · rw [diffsBuilderLoop_step_exit slice endp [] rs indiff start pos plan differences
        hpos] at h
      obtain ⟨hpe, hdisj⟩ := hinv
      simp only [Except.ok.injEq, Prod.mk.injEq] at h
      obtain ⟨h1, h2, h3, h4, h5, -, -⟩ := h
      subst h1 h2 h3 h4 h5
      exact ⟨by omega, ⟨by omega, hdisj⟩⟩
  | succ n ihn =>
    intro ls rs hlen indiff start pos plan differences
    intro plan' differences' pos' start' indiff' ls' rs' h hinv
    by_cases hpos : pos < endp
    case neg =>
      rw [diffsBuilderLoop_step_exit slice endp ls rs indiff start pos plan differences
        hpos] at h
      obtain ⟨hpe, hdisj⟩ := hinv
      simp only [Except.ok.injEq, Prod.mk.injEq] at h
      obtain ⟨h1, h2, h3, h4, h5, -, -⟩ := h
      subst h1 h2 h3 h4 h5
      exact ⟨by omega, ⟨by omega, hdisj⟩⟩
    case pos =>
    obtain ⟨hpe, hdisj⟩ := hinv
    have hseg1 : 0 < (if endp < pos + slice then endp - pos else slice) := by
      split <;> omega
    have hseg2 : pos + (if endp < pos + slice then endp - pos else slice) ≤ endp := by
      split <;> omega
    cases hls : readString ls with
    | error e =>
      rw [diffsBuilderLoop_step_lserr slice endp ls rs indiff start pos plan differences
        hpos e hls] at h
      cases h
    | ok p =>
      obtain ⟨localHash, ls1⟩ := p
      have hlen1 : ls1.length ≤ n := by
        have := readString_shrinks hls
        omega
      cases hrs : readString rs with
      | error e =>
        rw [diffsBuilderLoop_step_rserr slice endp ls rs indiff start pos plan differences
          hpos localHash ls1 hls e hrs] at h
        cases h
      | ok q =>
        obtain ⟨remoteHash, rs1⟩ := q
        rw [diffsBuilderLoop_step_ok slice endp ls rs indiff start pos plan differences
          hpos localHash ls1 remoteHash rs1 hls hrs] at h
        by_cases hcond : indiff = false ∧ localHash ≠ remoteHash
        · rw [if_pos hcond] at h
          refine ihn ls1 rs1 hlen1 _ _ _ _ _ _ _ _ _ _ _ _ h ⟨hseg2, Or.inr ?_⟩
          rcases hdisj with ⟨hpl, hst, hind⟩ | ⟨closed, hplan, hcont, hsum, hposi, halt, hlt⟩
          · subst hpl hst
            by_cases hp0 : 0 < pos
            · have hp1 : (if ([] : List Diff) = [] ∧ 0 < pos then
                  ([] : List Diff) ++ [⟨0, 0, false⟩] else []) = [⟨0, 0, false⟩] := by
                rw [if_pos ⟨rfl, hp0⟩]
                rfl
              refine ⟨[⟨0, pos, false⟩], ?_, ?_, ?_, ?_, ?_, by omega⟩
              · rw [hp1]
                rw [if_neg (by simp)]
                rfl
              · simp [contiguousFrom]
              · simp [planSum]
              · simp only [allPositive, List.all_cons, List.all_nil, Bool.and_true,
                  decide_eq_true_eq]
                omega
              · rw [hp1, if_neg (by simp)]
                show alternating ([⟨0, pos, false⟩] ++ [⟨pos, 0, true⟩]) = true
                simp [alternating]
            · have hpz : pos = 0 := by omega
              subst hpz
              have hp1 : (if ([] : List Diff) = [] ∧ 0 < 0 then
                  ([] : List Diff) ++ [⟨0, 0, false⟩] else []) = [] := by
                rw [if_neg (by simp)]
              refine ⟨[], ?_, rfl, by simp [planSum], rfl, ?_, by omega⟩
              · rw [hp1, if_pos rfl]
              · rfl
          · have hne : plan ≠ [] := by
              rw [hplan]
              simp
            have hif : indiff = false := hcond.1
            subst hif
            have hp1 : (if plan = [] ∧ 0 < pos then
                plan ++ [⟨start, 0, false⟩] else plan) = plan := by
              rw [if_neg (by simp [hne])]
            refine ⟨closed ++ [⟨start, pos - start, false⟩], ?_, ?_, ?_, ?_, ?_, by omega⟩
            · rw [hp1, if_neg hne, hplan, setLastSize_append_singleton]
            · exact contiguousFrom_concat 0 closed _ hcont (by simpa using hsum.symm)
            · rw [planSum_append]
              simp only [planSum, List.map_cons, List.map_nil, List.sum_cons, List.sum_nil]
              have hsum2 : (List.map Diff.Size closed).sum = start := hsum
              omega
            · rw [allPositive_append, hposi]
              simp only [allPositive, List.all_cons, List.all_nil, Bool.true_and,
                Bool.and_true, decide_eq_true_eq]
              omega
            · rw [hp1, if_neg hne, hplan, setLastSize_append_singleton]
              refine alternating_concat _ _ _ ?_ (by simp)
              exact alternating_setLast closed _ _ (by rw [← hplan]; exact halt)
        · rw [if_neg hcond] at h
          by_cases hcond2 : indiff = true ∧ localHash = remoteHash
          · rw [if_pos hcond2] at h
            refine ihn ls1 rs1 hlen1 _ _ _ _ _ _ _ _ _ _ _ _ h ⟨hseg2, Or.inr ?_⟩
            have hif : indiff = true := hcond2.1
            subst hif
            rcases hdisj with ⟨-, -, hind⟩ | ⟨closed, hplan, hcont, hsum, hposi, halt, hlt⟩
            · exact absurd hind (by simp)
            refine ⟨closed ++ [⟨start, pos - start, true⟩], ?_, ?_, ?_, ?_, ?_, by omega⟩
            · rw [hplan, setLastSize_append_singleton]
            · exact contiguousFrom_concat 0 closed _ hcont (by simpa using hsum.symm)
            · rw [planSum_append]
              simp only [planSum, List.map_cons, List.map_nil, List.sum_cons, List.sum_nil]
              have hsum2 : (List.map Diff.Size closed).sum = start := hsum
              omega
            · rw [allPositive_append, hposi]
              simp only [allPositive, List.all_cons, List.all_nil, Bool.true_and,
                Bool.and_true, decide_eq_true_eq]
              omega
            · rw [hplan, setLastSize_append_singleton]
              refine alternating_concat _ _ _ ?_ (by simp)
              exact alternating_setLast closed _ _ (by rw [← hplan]; exact halt)
          · rw [if_neg hcond2] at h
            refine ihn ls1 rs1 hlen1 _ _ _ _ _ _ _ _ _ _ _ _ h ⟨hseg2, ?_⟩
            rcases hdisj with hA | ⟨closed, hplan, hcont, hsum, hposi, halt, hlt⟩
            · exact Or.inl hA
            · exact Or.inr ⟨closed, hplan, hcont, hsum, hposi, halt, by omega⟩

/-- The loop invariant theorem in direct form. -/
theorem diffsBuilderLoop_invariant (slice endp : Nat) (hs : 1 ≤ slice)
    (ls rs : List Nat) (indiff : Bool) (start pos : Nat) (plan : List Diff)
    (differences : Nat)
    (plan' : List Diff) (differences' pos' start' : Nat) (indiff' : Bool)
    (ls' rs' : List Nat)
    (h : diffsBuilderLoop slice endp ls rs indiff start pos plan differences =
      .ok (plan', differences', pos', start', indiff', ls', rs'))
    (hinv : LoopInv endp indiff start pos plan) :
    pos' = endp ∧ LoopInv endp indiff' start' pos' plan' :=
  diffsBuilderLoop_invariant_aux slice endp hs ls.length ls rs (Nat.le_refl _)
    indiff start pos plan differences plan' differences' pos' start' indiff' ls' rs' h hinv

/-- Plan shape produced by a successful `diffsBuilder` run. -/
theorem diffsBuilder_props (d : Diffs) (ls rs : List Nat) (lsize : Nat)
    (hslice : 1 ≤ d.Slice) (d' : Diffs) (ls1 rs1 : List Nat)
    (h : diffsBuilder d ls rs lsize = .ok (d', ls1, rs1)) :
    contiguousFrom 0 d'.Diffs = true ∧
    planSum d'.Diffs = d.Size ∧
    (lsize < d.Size → d'.Diffs.getLast? = some ⟨lsize, d.Size - lsize, true⟩) ∧
    (0 < lsize → 0 < d.Size → allPositive d'.Diffs = true) ∧
    (d.Size ≤ lsize → alternating d'.Diffs = true) ∧
    (lsize < d.Size → alternating d'.Diffs.dropLast = true) ∧
    d'.Diffs ≠ [] ∧ d'.Size = d.Size := by
  unfold diffsBuilder at h
  cases hloop : diffsBuilderLoop d.Slice (min lsize d.Size) ls rs false 0 0 [] 0 with
  | error e =>
    rw [hloop] at h
    cases h
  | ok res =>
    obtain ⟨plan, differences, pos, start, indiff, lsR, rsR⟩ := res
    rw [hloop] at h
    simp only [] at h
    obtain ⟨hpos, hinv⟩ := diffsBuilderLoop_invariant d.Slice (min lsize d.Size) hslice
      ls rs false 0 0 [] 0 plan differences pos start indiff lsR rsR hloop
      ⟨Nat.zero_le _, Or.inl ⟨rfl, rfl, rfl⟩⟩
    obtain ⟨hpe, hdisj⟩ := hinv
    subst hpos
    have hbase : contiguousFrom 0
          (if plan = [] then [⟨0, min lsize d.Size, false⟩]
           else setLastSize plan (min lsize d.Size - start)) = true ∧
        planSum (if plan = [] then [⟨0, min lsize d.Size, false⟩]
           else setLastSize plan (min lsize d.Size - start)) = min lsize d.Size ∧
        alternating (if plan = [] then [⟨0, min lsize d.Size, false⟩]
           else setLastSize plan (min lsize d.Size - start)) = true ∧
        (0 < min lsize d.Size → allPositive
          (if plan = [] then [⟨0, min lsize d.Size, false⟩]
           else setLastSize plan (min lsize d.Size - start)) = true) ∧
        (if plan = [] then [⟨0, min lsize d.Size, false⟩]
           else setLastSize plan (min lsize d.Size - start)) ≠ [] := by
      rcases hdisj with ⟨hpl, hst, hind⟩ | ⟨closed, hplan, hcont, hsum, hposi, halt, hlt⟩
      · subst hpl
        rw [if_pos rfl]
        refine ⟨by simp [contiguousFrom], by simp [planSum], rfl, ?_, by simp⟩
        intro hmin
        simp only [allPositive, List.all_cons, List.all_nil, Bool.and_true,
          decide_eq_true_eq]
        omega
      · have hne : plan ≠ [] := by
          rw [hplan]
          simp
        rw [if_neg hne, hplan, setLastSize_append_singleton]
        have hsum2 : (List.map Diff.Size closed).sum = start := hsum
        refine ⟨contiguousFrom_concat 0 closed _ hcont (by simpa using hsum.symm), ?_,
          alternating_setLast closed _ _ (by rw [← hplan]; exact halt), ?_, by simp⟩
        · rw [planSum_append]
          simp only [planSum, List.map_cons, List.map_nil, List.sum_cons, List.sum_nil]
          omega
        · intro hmin
          rw [allPositive_append, hposi]
          simp only [allPositive, List.all_cons, List.all_nil, Bool.true_and,
            Bool.and_true, decide_eq_true_eq]
          omega
    obtain ⟨hbc, hbs, hba, hbp, hbn⟩ := hbase
    by_cases hts : lsize < d.Size
    · rw [if_pos hts] at h
      simp only [Except.ok.injEq, Prod.mk.injEq] at h
      obtain ⟨hd, -, -⟩ := h
      subst hd
      have hmin : min lsize d.Size = lsize := Nat.min_eq_left (Nat.le_of_lt hts)
      simp only []
      rw [hmin] at hbc hbs hba hbp ⊢
      constructor
      · exact contiguousFrom_concat 0 _ _ hbc (by simpa using hbs.symm)
      constructor
      · rw [planSum_append, hbs]
        simp only [planSum, List.map_cons, List.map_nil, List.sum_cons, List.sum_nil]
        omega
      constructor
      · intro _
        rw [List.getLast?_append_of_ne_nil _ (by simp)]
        rfl
      constructor
      · intro hl hr
        rw [allPositive_append, hbp (by omega)]
        simp only [allPositive, List.all_cons, List.all_nil, Bool.true_and,
          Bool.and_true, decide_eq_true_eq]
        omega
      constructor
      · intro hcontra
        omega
      constructor
      · intro _
        rw [List.dropLast_concat]
        exact hba
      constructor
      · simp
      · trivial
    · rw [if_neg hts] at h
      simp only [Except.ok.injEq, Prod.mk.injEq] at h
      obtain ⟨hd, -, -⟩ := h
      subst hd
      have hmin : min lsize d.Size = d.Size := Nat.min_eq_right (Nat.le_of_not_lt hts)
      simp only []
      rw [hmin] at hbc hbs hba hbp hbn ⊢
      exact ⟨hbc, hbs, fun hc => absurd hc hts, fun _ hr => hbp hr,
        fun _ => hba, fun hc => absurd hc hts, hbn, trivial⟩

theorem setLastSize_ne_nil (l : List Diff) (sz : Nat) (h : l ≠ []) :
    setLastSize l sz ≠ [] := by
  match l with
  | [] => exact absurd rfl h
  | [d] => simp [setLastSize]
  | d :: e :: r =>
    show d :: setLastSize (e :: r) sz ≠ []
    simp

/-- A successful `diffsBuilder` run always leaves at least one segment in
the plan: both post-loop branches produce a non-empty list. -/
theorem diffsBuilder_ne_nil (d : Diffs) (ls rs : List Nat) (lsize : Nat)
    (d' : Diffs) (ls1 rs1 : List Nat)
    (h : diffsBuilder d ls rs lsize = .ok (d', ls1, rs1)) : d'.Diffs ≠ [] := by
  unfold diffsBuilder at h
  cases hloop : diffsBuilderLoop d.Slice (min lsize d.Size) ls rs false 0 0 [] 0 with
  | error e =>
    rw [hloop] at h
    cases h
  | ok res =>
    obtain ⟨plan, differences, pos, start, indiff, lsR, rsR⟩ := res
    rw [hloop] at h
    simp only [] at h
    by_cases hts : lsize < d.Size
    · rw [if_pos hts] at h
      simp only [Except.ok.injEq, Prod.mk.injEq] at h
      obtain ⟨hd, -, -⟩ := h
      subst hd
      simp
    · rw [if_neg hts] at h
      simp only [Except.ok.injEq, Prod.mk.injEq] at h
      obtain ⟨hd, -, -⟩ := h
      subst hd
      simp only []
      by_cases hp : plan = []
      · rw [if_pos hp]
        simp
      · rw [if_neg hp]
        exact setLastSize_ne_nil plan _ hp

/-- C10: the "No differences produced to allow file reconstruction" error
branch of `NaiveDiffs` is unreachable: for every input, including every
remote length and every local length, `diffsBuilder` leaves at least one
segment in the plan, so `NaiveDiffs` never returns the `noDiffs` error. -/
theorem c10_nodiffs_unreachable (server filename alike : List Nat) (slice : Nat)
    (ls rs : List Nat) :
    NaiveDiffs server filename alike slice ls rs ≠ .error .noDiffs := by
  intro h
  unfold NaiveDiffs at h
  cases hlh : readHeader ls alike slice with
  | error e =>
    rw [hlh] at h
    simp at h
  | ok p =>
    obtain ⟨lsize, ls1⟩ := p
    rw [hlh] at h
    simp only [] at h
    cases hrh : readHeader rs filename slice with
    | error e =>
      rw [hrh] at h
      simp at h
    | ok q =>
      obtain ⟨rsize, rs1⟩ := q
      rw [hrh] at h
      simp only [] at h
      cases hdb : diffsBuilder (NewDiffs server filename alike slice rsize) ls1 rs1 lsize with
      | error e =>
        rw [hdb] at h
        simp at h
      | ok r =>
        obtain ⟨d0, ls2, rs2⟩ := r
        rw [hdb] at h
        simp only [] at h
        have hne := diffsBuilder_ne_nil _ ls1 rs1 lsize d0 ls2 rs2 hdb
        rw [if_neg (fun hc => hne hc.2)] at h
        cases hla : readAttribute sha1Name ls2 with
        | error e =>
          rw [hla] at h
          simp at h
        | ok u =>
          obtain ⟨ah, lsx⟩ := u
          rw [hla] at h
          simp only [] at h
          cases hra : readAttribute sha1Name rs2 with
          | error e =>
            rw [hra] at h
            simp at h
          | ok v =>
            obtain ⟨hh, rsx⟩ := v
            rw [hra] at h
            simp at h

/-- When the two streams are the same list, every iteration reads identical
hashes, so the loop never opens a segment: the plan stays empty and the
`Differences` counter never moves. -/
theorem diffsBuilderLoop_same_aux (slice endp : Nat) :
    ∀ (n : Nat) (ls : List Nat), ls.length ≤ n →
    ∀ (pos differences : Nat)
      (plan' : List Diff) (differences' pos' start' : Nat) (indiff' : Bool)
      (ls' rs' : List Nat),
      diffsBuilderLoop slice endp ls ls false 0 pos [] differences =
        .ok (plan', differences', pos', start', indiff', ls', rs') →
      plan' = [] ∧ differences' = differences ∧ start' = 0 ∧ indiff' = false ∧ ls' = rs' := by
  intro n
  induction n with
  | zero =>
    intro ls hlen pos differences plan' differences' pos' start' indiff' ls' rs' h
    have hls : ls = [] := List.eq_nil_of_length_eq_zero (by omega)
    subst hls
    by_cases hpos : pos < endp
    · rw [diffsBuilderLoop_step_lserr slice endp [] [] false 0 pos [] differences hpos
        .eof (by decide)] at h
      cases h
    · rw [diffsBuilderLoop_step_exit slice endp [] [] false 0 pos [] differences hpos] at h
      simp only [Except.ok.injEq, Prod.mk.injEq] at h
      obtain ⟨h1, h2, -, h4, h5, h6, h7⟩ := h
      exact ⟨h1.symm, h2.symm, h4.symm, h5.symm, by rw [← h6, ← h7]⟩
  | succ n ihn =>
    intro ls hlen pos differences plan' differences' pos' start' indiff' ls' rs' h
    by_cases hpos : pos < endp
    · cases hread : readString ls with
      | error e =>
        rw [diffsBuilderLoop_step_lserr slice endp ls ls false 0 pos [] differences hpos
          e hread] at h
        cases h
      | ok p =>
        obtain ⟨lh, ls1⟩ := p
        rw [diffsBuilderLoop_step_ok slice endp ls ls false 0 pos [] differences hpos
          lh ls1 lh ls1 hread hread] at h
        rw [if_neg (by simp)] at h
        rw [if_neg (by simp)] at h
        have hlen1 : ls1.length ≤ n := by
          have := readString_shrinks hread
          omega
        exact ihn ls1 hlen1 _ _ _ _ _ _ _ _ _ h
    · rw [diffsBuilderLoop_step_exit slice endp ls ls false 0 pos [] differences hpos] at h
      simp only [Except.ok.injEq, Prod.mk.injEq] at h
      obtain ⟨h1, h2, -, h4, h5, h6, h7⟩ := h
      exact ⟨h1.symm, h2.symm, h4.symm, h5.symm, by rw [← h6, ← h7]⟩

/-- C2 (amended): the two edge cases of `diffsBuilder`. (a) When the local
alike declares length 0 and the remote length is positive, the loop never
runs and the emitted plan is `[Local(0,0), Remote(0, L_r)]` — a zero-size
`Local` segment precedes the `Remote` segment, not the single
`Remote(0, L_r)` the claim states. (b) When the two fingerprint streams
are identical with equal declared lengths, the plan is the single segment
`Local(0, L_r)` and no differences are counted. -/
theorem c2_edge_cases_amended (d : Diffs) (hs : 1 ≤ d.Slice) (ls rs : List Nat) :
    (0 < d.Size → diffsBuilder d ls rs 0 =
        .ok ({ d with
               Diffs := [⟨0, 0, false⟩, ⟨0, d.Size, true⟩],
               Differences := d.Differences + d.Size }, ls, rs)) ∧
    (∀ d' ls1 rs1, diffsBuilder d ls ls d.Size = .ok (d', ls1, rs1) →
      d'.Diffs = [⟨0, d.Size, false⟩] ∧ d'.Differences = d.Differences ∧
      d'.Size = d.Size ∧ ls1 = rs1) := by
  constructor
  · intro hpos
    unfold diffsBuilder
    rw [Nat.zero_min, diffsBuilderLoop_step_exit d.Slice 0 ls rs false 0 0 [] 0 (by omega)]
    simp only [if_pos rfl, if_pos hpos]
    simp
  · intro d' ls1 rs1 h
    unfold diffsBuilder at h
    rw [Nat.min_self] at h
    cases hloop : diffsBuilderLoop d.Slice d.Size ls ls false 0 0 [] 0 with
    | error e =>
      rw [hloop] at h
      cases h
    | ok res =>
      obtain ⟨plan, differences, pos, start, indiff, lsR, rsR⟩ := res
      rw [hloop] at h
      simp only [] at h
      obtain ⟨hpl, hdf, hst, hin, hlr⟩ :=
        diffsBuilderLoop_same_aux d.Slice d.Size ls.length ls (Nat.le_refl _) 0 0
          plan differences pos start indiff lsR rsR hloop
      subst hpl hdf hst hin
      have hpos : pos = d.Size := by
        have hinv := diffsBuilderLoop_invariant d.Slice d.Size hs ls ls false 0 0 [] 0
          [] 0 pos 0 false lsR rsR hloop ⟨Nat.zero_le _, Or.inl ⟨rfl, rfl, rfl⟩⟩
        exact hinv.1
      subst hpos
      rw [if_neg (lt_irrefl d.Size)] at h
      simp only [Except.ok.injEq, Prod.mk.injEq] at h
      obtain ⟨hd, hl1, hr1⟩ := h
      subst hd
      refine ⟨by simp, by simp, rfl, by rw [← hl1, ← hr1, hlr]⟩

/-- C2 counterexample: with local length 0 and remote length 20 the plan
emitted by `diffsBuilder` is `[Local(0,0), Remote(0,20)]`, which is not
the single segment `Remote(0,20)` stated by the claim. -/
theorem c2_edge_cases_counterexample :
    diffsBuilder (NewDiffs [115] [114] [108] 10 20) [] [] 0 =
      .ok ({ NewDiffs [115] [114] [108] 10 20 with
             Diffs := [⟨0, 0, false⟩, ⟨0, 20, true⟩],
             Differences := 20 }, [], []) ∧
    [Diff.mk 0 0 false, Diff.mk 0 20 true] ≠ [Diff.mk 0 20 true] := by
  constructor
  · unfold diffsBuilder
    rw [Nat.zero_min, diffsBuilderLoop_step_exit _ 0 [] [] false 0 0 [] 0 (by omega)]
    simp only [if_pos rfl]
    rw [if_pos (by decide : (0 : Nat) < (NewDiffs [115] [114] [108] 10 20).Size)]
    simp [NewDiffs]
  · decide

/-- C2 witness: part (a) of the amended statement evaluated at remote
length 21 and slice 7 with empty streams. -/
theorem c2_edge_cases_witness :
    diffsBuilder (NewDiffs [115] [114] [108] 7 21) [] [] 0 =
      .ok ({ NewDiffs [115] [114] [108] 7 21 with
             Diffs := [⟨0, 0, false⟩, ⟨0, 21, true⟩],
             Differences := 21 }, [], []) := by
  have h := (c2_edge_cases_amended (NewDiffs [115] [114] [108] 7 21) (by decide) [] []).1
    (by decide)
  simpa [NewDiffs] using h

/-- A chunk list of a non-empty content no longer than one slice is the
single chunk holding the whole content. -/
theorem chunkify_single (slice : Nat) (c : List Nat) (hne : c ≠ [])
    (hle : c.length ≤ slice) : chunkify slice c = [c] := by
  cases c with
  | nil => exact absurd rfl hne
  | cons x xs =>
    have hz : slice ≠ 0 := by
      simp only [List.length_cons] at hle
      omega
    rw [chunkify, if_neg hz, List.take_of_length_le hle,
      List.drop_eq_nil_of_le hle, chunkify]

/-- Peeling one full slice off the front of the content peels one chunk. -/
theorem chunkify_cons_chunk (slice : Nat) (c r : List Nat)
    (hc : c.length = slice) (hcne : c ≠ []) :
    chunkify slice (c ++ r) = c :: chunkify slice r := by
  cases c with
  | nil => exact absurd rfl hcne
  | cons x xs =>
    have hz : slice ≠ 0 := by
      simp only [List.length_cons] at hc
      omega
    rw [List.cons_append, chunkify, if_neg hz]
    rw [← List.cons_append, List.take_left' hc, List.drop_left' hc]

/-- Reading one base64 line from a line-joined stream. -/
theorem readString_b64_line (u : List Nat) (ls : List (List Nat))
    (herr : startsWith errMarker (b64encode u) = false) :
    readString (joinLines (b64encode u :: ls)) = .ok (b64encode u, joinLines ls) := by
  have h10 : nl ∉ b64encode u := by
    intro hm
    have := (b64encode_mem u nl hm).1
    simp [isCut, nl] at this
  rw [readString_joinLines _ _ h10 herr,
    trimBytes_of_all _ (fun c hc => (b64encode_mem u c hc).1)]

/-- A base64 line whose first sextet does not encode to `E` never carries
the in-band error marker. -/
theorem startsWith_errMarker_b64_false (x y z : Nat) (rest : List Nat)
    (hx : b64char (x / 4) ≠ 69) :
    startsWith errMarker (b64encode (x :: y :: z :: rest)) = false := by
  show startsWith errMarker (enc3 x y z ++ b64encode rest) = false
  simp only [enc3, errMarker, List.cons_append, startsWith, Bool.and_eq_false_iff,
    decide_eq_false_iff_not]
  left
  omega

/-- C1 (amended): on every successful `NaiveDiffs` run with slice S ≥ 1
whose local header declares length `lsize`, the emitted plan is non-empty,
starts at offset 0 with contiguous segments, and its sizes sum to the
remote length (P1, P2, P3, P5 and the end-at-L_r property). Positivity of
every segment holds when both lengths are positive and the local file is
at least as long as the remote one, and the alternating-source property
(P4) holds for the whole plan only when `L_r ≤ lsize`; when
`lsize < L_r` the appended tail `Remote(lsize, L_r - lsize)` can repeat
the `Different` flag, so P4 is only guaranteed on the plan without its
last segment, and a zero-size segment can occur (the unrestricted P4 and
positivity claims fail, see the counterexample). -/
theorem c1_plan_invariants_amended (server filename alike : List Nat) (slice : Nat)
    (hs : 1 ≤ slice) (ls rs : List Nat) (lsize : Nat) (ls1 : List Nat)
    (hl : readHeader ls alike slice = .ok (lsize, ls1))
    (d : Diffs) (h : NaiveDiffs server filename alike slice ls rs = .ok d) :
    contiguousFrom 0 d.Diffs = true ∧
    planSum d.Diffs = d.Size ∧
    d.Diffs ≠ [] ∧
    (0 < lsize → 0 < d.Size → allPositive d.Diffs = true) ∧
    (d.Size ≤ lsize → alternating d.Diffs = true) ∧
    (lsize < d.Size → alternating d.Diffs.dropLast = true ∧
      d.Diffs.getLast? = some ⟨lsize, d.Size - lsize, true⟩) := by
  unfold NaiveDiffs at h
  rw [hl] at h
  simp only [] at h
  cases hrh : readHeader rs filename slice with
  | error e =>
    rw [hrh] at h
    simp at h
  | ok q =>
    obtain ⟨rsize, rs1⟩ := q
    rw [hrh] at h
    simp only [] at h
    cases hdb : diffsBuilder (NewDiffs server filename alike slice rsize) ls1 rs1 lsize with
    | error e =>
      rw [hdb] at h
      simp at h
    | ok r =>
      obtain ⟨d0, ls2, rs2⟩ := r
      rw [hdb] at h
      simp only [] at h
      obtain ⟨hc, hsum, hlast, hposv, halt, haltd, hnn, hsz⟩ :=
        diffsBuilder_props (NewDiffs server filename alike slice rsize)
          ls1 rs1 lsize hs d0 ls2 rs2 hdb
      rw [if_neg (fun hcontra => hnn hcontra.2)] at h
      cases hla : readAttribute sha1Name ls2 with
      | error e =>
        rw [hla] at h
        simp at h
      | ok u =>
        obtain ⟨ah, lsx⟩ := u
        rw [hla] at h
        simp only [] at h
        cases hra : readAttribute sha1Name rs2 with
        | error e =>
          rw [hra] at h
          simp at h
        | ok v =>
          obtain ⟨hh, rsx⟩ := v
          rw [hra] at h
          simp only [Except.ok.injEq] at h
          subst h
          refine ⟨hc, ?_, hnn, ?_, ?_, ?_⟩
          · show planSum d0.Diffs = d0.Size
            rw [hsz]
            exact hsum
          · intro h1 h2
            show allPositive d0.Diffs = true
            refine hposv h1 ?_
            rw [← hsz]
            exact h2
          · intro h1
            show alternating d0.Diffs = true
            refine halt ?_
            rw [← hsz]
            exact h1
          · intro h1
            have h1' : lsize < (NewDiffs server filename alike slice rsize).Size := by
              rw [← hsz]
              exact h1
            constructor
            · show alternating d0.Diffs.dropLast = true
              exact haltd h1'
            · show d0.Diffs.getLast? = some ⟨lsize, d0.Size - lsize, true⟩
              rw [hsz]
              exact hlast h1'

/-- C1 counterexample: a one-slice local stream against a two-slice remote
stream with a differing first slice. The emitted plan is
`[Remote(0,10), Remote(10,10)]`: two adjacent segments with the same
`Different` flag, so the alternating-source property P4 fails. -/
theorem c1_plan_invariants_counterexample :
    diffsBuilder (NewDiffs [115] [114] [108] 10 20) [65, 10] [66, 10] 10 =
      .ok ({ NewDiffs [115] [114] [108] 10 20 with
             Diffs := [⟨0, 10, true⟩, ⟨10, 10, true⟩],
             Differences := 20 }, [], []) ∧
    alternating [Diff.mk 0 10 true, Diff.mk 10 10 true] = false := by
  refine ⟨?_, by decide⟩
  have hloop : diffsBuilderLoop (NewDiffs [115] [114] [108] 10 20).Slice
      (min 10 (NewDiffs [115] [114] [108] 10 20).Size) [65, 10] [66, 10] false 0 0 [] 0 =
      .ok ([⟨0, 0, true⟩], 10, 10, 0, true, [], []) := by
    show diffsBuilderLoop 10 10 [65, 10] [66, 10] false 0 0 [] 0 =
      .ok ([⟨0, 0, true⟩], 10, 10, 0, true, [], [])
    rw [diffsBuilderLoop_step_ok 10 10 [65, 10] [66, 10] false 0 0 [] 0 (by omega)
      [65] [] [66] [] (by decide) (by decide)]
    rw [if_pos ⟨rfl, by decide⟩]
    norm_num
    exact diffsBuilderLoop_step_exit 10 10 [] [] true 0 10 [⟨0, 0, true⟩] 10 (by omega)
  unfold diffsBuilder
  rw [hloop]
  decide

/-- The constant stand-ins for the external MD5 and SHA-1 primitives used
by the concrete witness runs. -/
def md5c (l : List Nat) : List Nat := List.replicate 16 (l.headD 0)

def sha1c (l : List Nat) : List Nat := List.replicate 20 (l.headD 0)

/-- C1 witness: the amended statement evaluated on a run of `NaiveDiffs`
over the writer's fingerprints of two identical 10-byte files: all
hypotheses hold, and the emitted plan is the single segment
`Local(0,10)`, which is alternating, positive, contiguous and sums to the
remote length. -/
theorem c1_plan_invariants_witness :
    alternating [Diff.mk 0 10 false] = true ∧
    planSum [Diff.mk 0 10 false] = 10 ∧
    contiguousFrom 0 [Diff.mk 0 10 false] = true := by
  have hlen : (List.replicate 10 65).length = 10 := by decide
  have hhdr := readHeader_hashDump md5c sha1c [108] 10 (List.replicate 10 65)
    (by decide) (by decide) (by decide) (by decide)
  rw [hlen, if_neg (by decide : ¬ (10 : Nat) = 0)] at hhdr
  have hhdr2 := readHeader_hashDump md5c sha1c [114] 10 (List.replicate 10 65)
    (by decide) (by decide) (by decide) (by decide)
  rw [hlen, if_neg (by decide : ¬ (10 : Nat) = 0)] at hhdr2
  have hbody : hashBodyLines md5c 10 (List.replicate 10 65) =
      [b64encode (sliceDigest md5c (List.replicate 10 65))] := by
    unfold hashBodyLines
    rw [chunkify_single 10 _ (by decide) (by decide)]
    rfl
  rw [hbody] at hhdr hhdr2
  have hread : readString (joinLines
        ([b64encode (sliceDigest md5c (List.replicate 10 65))] ++
          [totalLine sha1c (List.replicate 10 65)])) =
      .ok (b64encode (sliceDigest md5c (List.replicate 10 65)),
        joinLines [totalLine sha1c (List.replicate 10 65)]) := by
    rw [show [b64encode (sliceDigest md5c (List.replicate 10 65))] ++
          [totalLine sha1c (List.replicate 10 65)] =
        b64encode (sliceDigest md5c (List.replicate 10 65)) ::
          [totalLine sha1c (List.replicate 10 65)] from rfl]
    exact readString_b64_line _ _ (by decide)
  have hloop : diffsBuilderLoop (NewDiffs [115] [114] [108] 10 10).Slice
      (min 10 (NewDiffs [115] [114] [108] 10 10).Size)
      (joinLines ([b64encode (sliceDigest md5c (List.replicate 10 65))] ++
        [totalLine sha1c (List.replicate 10 65)]))
      (joinLines ([b64encode (sliceDigest md5c (List.replicate 10 65))] ++
        [totalLine sha1c (List.replicate 10 65)])) false 0 0 [] 0 =
      .ok ([], 0, 10, 0, false,
        joinLines [totalLine sha1c (List.replicate 10 65)],
        joinLines [totalLine sha1c (List.replicate 10 65)]) := by
    show diffsBuilderLoop 10 10
      (joinLines ([b64encode (sliceDigest md5c (List.replicate 10 65))] ++
        [totalLine sha1c (List.replicate 10 65)]))
      (joinLines ([b64encode (sliceDigest md5c (List.replicate 10 65))] ++
        [totalLine sha1c (List.replicate 10 65)])) false 0 0 [] 0 = _
    rw [diffsBuilderLoop_step_ok 10 10 _ _ false 0 0 [] 0 (by omega)
      _ _ _ _ hread hread]
    rw [if_neg (by simp), if_neg (by simp)]
    norm_num
    exact diffsBuilderLoop_step_exit 10 10 _ _ false 0 10 [] 0 (by omega)
  have hdb : diffsBuilder (NewDiffs [115] [114] [108] 10 10)
      (joinLines ([b64encode (sliceDigest md5c (List.replicate 10 65))] ++
        [totalLine sha1c (List.replicate 10 65)]))
      (joinLines ([b64encode (sliceDigest md5c (List.replicate 10 65))] ++
        [totalLine sha1c (List.replicate 10 65)])) 10 =
      .ok ({ NewDiffs [115] [114] [108] 10 10 with Diffs := [⟨0, 10, false⟩] },
        joinLines [totalLine sha1c (List.replicate 10 65)],
        joinLines [totalLine sha1c (List.replicate 10 65)]) := by
    unfold diffsBuilder
    rw [hloop]
    norm_num [setLastSize, NewDiffs]
  have htot : readAttribute sha1Name (joinLines [totalLine sha1c (List.replicate 10 65)]) =
      .ok (hexEncode (sha1c (List.replicate 10 65)), joinLines []) := by
    exact readAttribute_line_plain sha1Name _ _ (by decide) (by decide) (by decide)
      (by decide) (fun c hc => (hexEncode_mem _ c hc).1) (by decide)
  have hrun : NaiveDiffs [115] [114] [108] 10
      (hashDump md5c sha1c [108] 10 (List.replicate 10 65))
      (hashDump md5c sha1c [114] 10 (List.replicate 10 65)) =
      .ok ({ NewDiffs [115] [114] [108] 10 10 with
             Diffs := [⟨0, 10, false⟩],
             Hash := hexEncode (sha1c (List.replicate 10 65)),
             AlikeHash := hexEncode (sha1c (List.replicate 10 65)) }) := by
    unfold NaiveDiffs
    rw [hhdr]
    simp only []
    rw [hhdr2]
    simp only []
    rw [hdb]
    simp only []
    rw [if_neg (by simp)]
    rw [htot]
  have h := c1_plan_invariants_amended [115] [114] [108] 10 (by omega)
    (hashDump md5c sha1c [108] 10 (List.replicate 10 65))
    (hashDump md5c sha1c [114] 10 (List.replicate 10 65)) 10
    (joinLines ([b64encode (sliceDigest md5c (List.replicate 10 65))] ++
      [totalLine sha1c (List.replicate 10 65)])) hhdr _ hrun
  exact ⟨h.2.2.2.2.1 (by decide), h.2.1, h.1⟩

/-! ### Scenario S2: the concrete 60-byte test files of `slicesync_test.go`. -/

/-- Line "AAAAAAAAA\n". -/
def lineA : List Nat := [65, 65, 65, 65, 65, 65, 65, 65, 65, 10]

/-- Line "BBBBBBBBB\n". -/
def lineB : List Nat := [66, 66, 66, 66, 66, 66, 66, 66, 66, 10]

/-- Line "CCCCCCCCC\n". -/
def lineC : List Nat := [67, 67, 67, 67, 67, 67, 67, 67, 67, 10]

/-- Line "CCCCCcCCC\n" (differs from `lineC` in one byte). -/
def lineCc : List Nat := [67, 67, 67, 67, 67, 99, 67, 67, 67, 10]

/-- Line "DDDDDDDDD\n". -/
def lineD : List Nat := [68, 68, 68, 68, 68, 68, 68, 68, 68, 10]

/-- Line "EEEEEEEEE\n". -/
def lineE : List Nat := [69, 69, 69, 69, 69, 69, 69, 69, 69, 10]

/-- Line "EEEeEEEEE\n" (differs from `lineE` in one byte). -/
def lineEe : List Nat := [69, 69, 69, 101, 69, 69, 69, 69, 69, 10]

/-- Line "AAAAAAAaA\n" (differs from `lineA` in one byte). -/
def lineAa : List Nat := [65, 65, 65, 65, 65, 65, 65, 97, 65, 10]

/-- The 60-byte `testfile` constant (remote side of scenario S2). -/
def testfileBytes : List Nat :=
  lineA ++ (lineB ++ (lineC ++ (lineD ++ (lineE ++ lineA))))

/-- The 60-byte `likefile` constant (local alike of scenario S2): lines 3,
5 and 6 each differ from `testfile` by one byte. -/
def likefileBytes : List Nat :=
  lineA ++ (lineB ++ (lineCc ++ (lineD ++ (lineEe ++ lineAa))))

/-- Bytes of "testfile.txt". -/
def testfileName : List Nat := [116, 101, 115, 116, 102, 105, 108, 101, 46, 116, 120, 116]

/-- Bytes of "testfile2.txt". -/
def likefileName : List Nat :=
  [116, 101, 115, 116, 102, 105, 108, 101, 50, 46, 116, 120, 116]

/-- Reading one slice-digest line: its Adler prefix fixes the first base64
character away from the `Error:` marker, and base64 bytes are never
trimmed. -/
theorem readString_digest_line (md5fn : List Nat → List Nat) (c : List Nat)
    (k0 k1 k2 k3 : Nat) (had : adlerSumBytes c = [k0, k1, k2, k3])
    (hk : b64char (k0 / 4) ≠ 69) (ls : List (List Nat)) :
    readString (joinLines (b64encode (sliceDigest md5fn c) :: ls)) =
      .ok (b64encode (sliceDigest md5fn c), joinLines ls) := by
  refine readString_b64_line _ _ ?_
  unfold sliceDigest
  rw [had]
  show startsWith errMarker (b64encode (k0 :: k1 :: k2 :: (k3 :: md5fn c))) = false
  exact startsWith_errMarker_b64_false _ _ _ _ hk

/-- Two slice-digest lines whose Adler prefixes encode to different base64
quadruples are different lines, whatever the MD5 tail is. -/
theorem digest_line_ne (md5fn : List Nat → List Nat) (c c' : List Nat)
    (k0 k1 k2 k3 j0 j1 j2 j3 : Nat)
    (had : adlerSumBytes c = [k0, k1, k2, k3])
    (had' : adlerSumBytes c' = [j0, j1, j2, j3])
    (hne : enc3 k0 k1 k2 ≠ enc3 j0 j1 j2) :
    b64encode (sliceDigest md5fn c) ≠ b64encode (sliceDigest md5fn c') := by
  unfold sliceDigest
  rw [had, had']
  intro heq
  have h1 : enc3 k0 k1 k2 ++ b64encode (k3 :: md5fn c) =
      enc3 j0 j1 j2 ++ b64encode (j3 :: md5fn c') := heq
  exact hne (List.append_inj h1 rfl).1

/-- Reading the whole-file total line, for any SHA-1 value (including the
empty digest, whose line ends in a space that `readString` trims away). -/
theorem readAttribute_totalLine (sha1fn : List Nat → List Nat) (content : List Nat)
    (ls : List (List Nat)) :
    readAttribute sha1Name (joinLines (totalLine sha1fn content :: ls)) =
      .ok (hexEncode (sha1fn content), joinLines ls) := by
  by_cases hv : hexEncode (sha1fn content) = []
  · rw [totalLine, hv, List.append_nil]
    unfold readAttribute
    rw [readString_joinLines _ _ (by decide) (by decide)]
    simp only []
    rw [show trimBytes (sha1Name ++ [58, 32]) = [115, 104, 97, 49, 58] from by decide]
    rw [if_pos (by decide)]
    rfl
  · refine readAttribute_line_plain sha1Name _ ls (by decide) (by decide) (by decide)
      hv (fun c hc => (hexEncode_mem _ c hc).1) ?_
    simp [errMarker, sha1Name, startsWith]

/-- The full `NaiveDiffs` run of scenario S2 at slice 10, for any MD5 and
SHA-1 primitives: slices 0, 1 and 3 agree, slices 2, 4 and 5 differ
already in their rolling-Adler digest prefix, and the run reports
`Differences = 30`. -/
theorem naiveDiffs_s2_slice10 (md5fn sha1fn : List Nat → List Nat) :
    NaiveDiffs [115] testfileName likefileName 10
      (hashDump md5fn sha1fn likefileName 10 likefileBytes)
      (hashDump md5fn sha1fn testfileName 10 testfileBytes) =
      .ok ({ NewDiffs [115] testfileName likefileName 10 60 with
             Diffs := [⟨0, 20, false⟩, ⟨20, 10, true⟩, ⟨30, 10, false⟩, ⟨40, 20, true⟩],
             Differences := 30,
             Hash := hexEncode (sha1fn testfileBytes),
             AlikeHash := hexEncode (sha1fn likefileBytes) }) := by
  have hchL : chunkify 10 likefileBytes = [lineA, lineB, lineCc, lineD, lineEe, lineAa] := by
    show chunkify 10 (lineA ++ (lineB ++ (lineCc ++ (lineD ++ (lineEe ++ lineAa))))) = _
    rw [chunkify_cons_chunk 10 lineA _ (by decide) (by decide),
      chunkify_cons_chunk 10 lineB _ (by decide) (by decide),
      chunkify_cons_chunk 10 lineCc _ (by decide) (by decide),
      chunkify_cons_chunk 10 lineD _ (by decide) (by decide),
      chunkify_cons_chunk 10 lineEe _ (by decide) (by decide),
      chunkify_single 10 lineAa (by decide) (by decide)]
  have hchR : chunkify 10 testfileBytes = [lineA, lineB, lineC, lineD, lineE, lineA] := by
    show chunkify 10 (lineA ++ (lineB ++ (lineC ++ (lineD ++ (lineE ++ lineA))))) = _
    rw [chunkify_cons_chunk 10 lineA _ (by decide) (by decide),
      chunkify_cons_chunk 10 lineB _ (by decide) (by decide),
      chunkify_cons_chunk 10 lineC _ (by decide) (by decide),
      chunkify_cons_chunk 10 lineD _ (by decide) (by decide),
      chunkify_cons_chunk 10 lineE _ (by decide) (by decide),
      chunkify_single 10 lineA (by decide) (by decide)]
  have hbodyL : hashBodyLines md5fn 10 likefileBytes =
      [b64encode (sliceDigest md5fn lineA), b64encode (sliceDigest md5fn lineB),
       b64encode (sliceDigest md5fn lineCc), b64encode (sliceDigest md5fn lineD),
       b64encode (sliceDigest md5fn lineEe), b64encode (sliceDigest md5fn lineAa)] := by
    unfold hashBodyLines
    rw [hchL]
    rfl
  have hbodyR : hashBodyLines md5fn 10 testfileBytes =
      [b64encode (sliceDigest md5fn lineA), b64encode (sliceDigest md5fn lineB),
       b64encode (sliceDigest md5fn lineC), b64encode (sliceDigest md5fn lineD),
       b64encode (sliceDigest md5fn lineE), b64encode (sliceDigest md5fn lineA)] := by
    unfold hashBodyLines
    rw [hchR]
    rfl
  have hhdrL := readHeader_hashDump md5fn sha1fn likefileName 10 likefileBytes
    (by decide) (by decide) (by decide) (by decide)
  rw [show likefileBytes.length = 60 from by decide,
    if_neg (by decide : ¬ (60 : Nat) = 0), hbodyL] at hhdrL
  simp only [List.cons_append, List.nil_append] at hhdrL
  have hhdrR := readHeader_hashDump md5fn sha1fn testfileName 10 testfileBytes
    (by decide) (by decide) (by decide) (by decide)
  rw [show testfileBytes.length = 60 from by decide,
    if_neg (by decide : ¬ (60 : Nat) = 0), hbodyR] at hhdrR
  simp only [List.cons_append, List.nil_append] at hhdrR
  have hneCc := digest_line_ne md5fn lineCc lineC 14 214 2 134 14 54 2 102
    (by decide) (by decide) (by decide)
  have hneEe := digest_line_ne md5fn lineEe lineE 15 130 2 152 14 162 2 120
    (by decide) (by decide) (by decide)
  have hneAa := digest_line_ne md5fn lineAa lineA 14 42 2 116 13 202 2 84
    (by decide) (by decide) (by decide)
  have hloop : diffsBuilderLoop
      (NewDiffs [115] testfileName likefileName 10 60).Slice
      (min 60 (NewDiffs [115] testfileName likefileName 10 60).Size)
      (joinLines [b64encode (sliceDigest md5fn lineA), b64encode (sliceDigest md5fn lineB),
        b64encode (sliceDigest md5fn lineCc), b64encode (sliceDigest md5fn lineD),
        b64encode (sliceDigest md5fn lineEe), b64encode (sliceDigest md5fn lineAa),
        totalLine sha1fn likefileBytes])
      (joinLines [b64encode (sliceDigest md5fn lineA), b64encode (sliceDigest md5fn lineB),
        b64encode (sliceDigest md5fn lineC), b64encode (sliceDigest md5fn lineD),
        b64encode (sliceDigest md5fn lineE), b64encode (sliceDigest md5fn lineA),
        totalLine sha1fn testfileBytes]) false 0 0 [] 0 =
      .ok ([⟨0, 20, false⟩, ⟨20, 10, true⟩, ⟨30, 10, false⟩, ⟨40, 0, true⟩], 30, 60, 40,
        true, joinLines [totalLine sha1fn likefileBytes],
        joinLines [totalLine sha1fn testfileBytes]) := by
    show diffsBuilderLoop 10 60 _ _ false 0 0 [] 0 = _
    rw [diffsBuilderLoop_step_ok 10 60 _ _ false 0 0 [] 0 (by omega) _ _ _ _
      (readString_digest_line md5fn lineA 13 202 2 84 (by decide) (by decide)
        [b64encode (sliceDigest md5fn lineB), b64encode (sliceDigest md5fn lineCc),
         b64encode (sliceDigest md5fn lineD), b64encode (sliceDigest md5fn lineEe),
         b64encode (sliceDigest md5fn lineAa), totalLine sha1fn likefileBytes])
      (readString_digest_line md5fn lineA 13 202 2 84 (by decide) (by decide)
        [b64encode (sliceDigest md5fn lineB), b64encode (sliceDigest md5fn lineC),
         b64encode (sliceDigest md5fn lineD), b64encode (sliceDigest md5fn lineE),
         b64encode (sliceDigest md5fn lineA), totalLine sha1fn testfileBytes])]
    rw [if_neg (by simp), if_neg (by simp)]
    norm_num
    rw [diffsBuilderLoop_step_ok 10 60 _ _ false 0 10 [] 0 (by omega) _ _ _ _
      (readString_digest_line md5fn lineB 14 0 2 93 (by decide) (by decide)
        [b64encode (sliceDigest md5fn lineCc), b64encode (sliceDigest md5fn lineD),
         b64encode (sliceDigest md5fn lineEe), b64encode (sliceDigest md5fn lineAa),
         totalLine sha1fn likefileBytes])
      (readString_digest_line md5fn lineB 14 0 2 93 (by decide) (by decide)
        [b64encode (sliceDigest md5fn lineC), b64encode (sliceDigest md5fn lineD),
         b64encode (sliceDigest md5fn lineE), b64encode (sliceDigest md5fn lineA),
         totalLine sha1fn testfileBytes])]
    rw [if_neg (by simp), if_neg (by simp)]
    norm_num
    rw [diffsBuilderLoop_step_ok 10 60 _ _ false 0 20 [] 0 (by omega) _ _ _ _
      (readString_digest_line md5fn lineCc 14 214 2 134 (by decide) (by decide)
        [b64encode (sliceDigest md5fn lineD), b64encode (sliceDigest md5fn lineEe),
         b64encode (sliceDigest md5fn lineAa), totalLine sha1fn likefileBytes])
      (readString_digest_line md5fn lineC 14 54 2 102 (by decide) (by decide)
        [b64encode (sliceDigest md5fn lineD), b64encode (sliceDigest md5fn lineE),
         b64encode (sliceDigest md5fn lineA), totalLine sha1fn testfileBytes])]
    rw [if_pos ⟨rfl, hneCc⟩]
    norm_num [setLastSize]
    rw [diffsBuilderLoop_step_ok 10 60 _ _ true 20 30
      [⟨0, 20, false⟩, ⟨20, 0, true⟩] 10 (by omega) _ _ _ _
      (readString_digest_line md5fn lineD 14 108 2 111 (by decide) (by decide)
        [b64encode (sliceDigest md5fn lineEe), b64encode (sliceDigest md5fn lineAa),
         totalLine sha1fn likefileBytes])
      (readString_digest_line md5fn lineD 14 108 2 111 (by decide) (by decide)
        [b64encode (sliceDigest md5fn lineE), b64encode (sliceDigest md5fn lineA),
         totalLine sha1fn testfileBytes])]
    rw [if_neg (by simp), if_pos ⟨rfl, rfl⟩]
    norm_num [setLastSize]
    rw [diffsBuilderLoop_step_ok 10 60 _ _ false 30 40
      [⟨0, 20, false⟩, ⟨20, 10, true⟩, ⟨30, 0, false⟩] 20 (by omega) _ _ _ _
      (readString_digest_line md5fn lineEe 15 130 2 152 (by decide) (by decide)
        [b64encode (sliceDigest md5fn lineAa), totalLine sha1fn likefileBytes])
      (readString_digest_line md5fn lineE 14 162 2 120 (by decide) (by decide)
        [b64encode (sliceDigest md5fn lineA), totalLine sha1fn testfileBytes])]
    rw [if_pos ⟨rfl, hneEe⟩]
    rw [if_neg (by simp : ¬ (([⟨0, 20, false⟩, ⟨20, 10, true⟩, ⟨30, 0, false⟩] : List Diff) = [] ∧ 0 < 40))]
    rw [if_neg (by simp : ¬ (([⟨0, 20, false⟩, ⟨20, 10, true⟩, ⟨30, 0, false⟩] : List Diff) = []))]
    norm_num [setLastSize]
    rw [diffsBuilderLoop_step_ok 10 60 _ _ true 40 50
      [⟨0, 20, false⟩, ⟨20, 10, true⟩, ⟨30, 10, false⟩, ⟨40, 0, true⟩] 30 (by omega) _ _ _ _
      (readString_digest_line md5fn lineAa 14 42 2 116 (by decide) (by decide)
        [totalLine sha1fn likefileBytes])
      (readString_digest_line md5fn lineA 13 202 2 84 (by decide) (by decide)
        [totalLine sha1fn testfileBytes])]
    rw [if_neg (by simp), if_neg (by simp [hneAa])]
    norm_num
    exact diffsBuilderLoop_step_exit 10 60 _ _ true 40 60 _ 30 (by omega)
  have hdb : diffsBuilder (NewDiffs [115] testfileName likefileName 10 60)
      (joinLines [b64encode (sliceDigest md5fn lineA), b64encode (sliceDigest md5fn lineB),
        b64encode (sliceDigest md5fn lineCc), b64encode (sliceDigest md5fn lineD),
        b64encode (sliceDigest md5fn lineEe), b64encode (sliceDigest md5fn lineAa),
        totalLine sha1fn likefileBytes])
      (joinLines [b64encode (sliceDigest md5fn lineA), b64encode (sliceDigest md5fn lineB),
        b64encode (sliceDigest md5fn lineC), b64encode (sliceDigest md5fn lineD),
        b64encode (sliceDigest md5fn lineE), b64encode (sliceDigest md5fn lineA),
        totalLine sha1fn testfileBytes]) 60 =
      .ok ({ NewDiffs [115] testfileName likefileName 10 60 with
             Diffs := [⟨0, 20, false⟩, ⟨20, 10, true⟩, ⟨30, 10, false⟩, ⟨40, 20, true⟩],
             Differences := 30 },
        joinLines [totalLine sha1fn likefileBytes],
        joinLines [totalLine sha1fn testfileBytes]) := by
    unfold diffsBuilder
    rw [hloop]
    norm_num [setLastSize, NewDiffs]
    simp
  unfold NaiveDiffs
  rw [hhdrL]
  simp only []
  rw [hhdrR]
  simp only []
  rw [hdb]
  simp only []
  rw [if_neg (by simp)]
  rw [readAttribute_totalLine sha1fn likefileBytes []]
  simp only []
  rw [readAttribute_totalLine sha1fn testfileBytes []]

/-- The full `NaiveDiffs` run of scenario S2 at slice 1000: the whole file
is a single differing slice and the run reports `Differences = 60`. -/
theorem naiveDiffs_s2_slice1000 (md5fn sha1fn : List Nat → List Nat) :
    NaiveDiffs [115] testfileName likefileName 1000
      (hashDump md5fn sha1fn likefileName 1000 likefileBytes)
      (hashDump md5fn sha1fn testfileName 1000 testfileBytes) =
      .ok ({ NewDiffs [115] testfileName likefileName 1000 60 with
             Diffs := [⟨0, 60, true⟩],
             Differences := 60,
             Hash := hexEncode (sha1fn testfileBytes),
             AlikeHash := hexEncode (sha1fn likefileBytes) }) := by
  have hbodyL : hashBodyLines md5fn 1000 likefileBytes =
      [b64encode (sliceDigest md5fn likefileBytes)] := by
    unfold hashBodyLines
    rw [chunkify_single 1000 _ (by decide) (by decide)]
    rfl
  have hbodyR : hashBodyLines md5fn 1000 testfileBytes =
      [b64encode (sliceDigest md5fn testfileBytes)] := by
    unfold hashBodyLines
    rw [chunkify_single 1000 _ (by decide) (by decide)]
    rfl
  have hhdrL := readHeader_hashDump md5fn sha1fn likefileName 1000 likefileBytes
    (by decide) (by decide) (by decide) (by decide)
  rw [show likefileBytes.length = 60 from by decide,
    if_neg (by decide : ¬ (60 : Nat) = 0), hbodyL] at hhdrL
  simp only [List.cons_append, List.nil_append] at hhdrL
  have hhdrR := readHeader_hashDump md5fn sha1fn testfileName 1000 testfileBytes
    (by decide) (by decide) (by decide) (by decide)
  rw [show testfileBytes.length = 60 from by decide,
    if_neg (by decide : ¬ (60 : Nat) = 0), hbodyR] at hhdrR
  simp only [List.cons_append, List.nil_append] at hhdrR
  have hneW := digest_line_ne md5fn likefileBytes testfileBytes 191 113 14 173 184 145 14 77
    (by decide) (by decide) (by decide)
  have hloop : diffsBuilderLoop
      (NewDiffs [115] testfileName likefileName 1000 60).Slice
      (min 60 (NewDiffs [115] testfileName likefileName 1000 60).Size)
      (joinLines [b64encode (sliceDigest md5fn likefileBytes),
        totalLine sha1fn likefileBytes])
      (joinLines [b64encode (sliceDigest md5fn testfileBytes),
        totalLine sha1fn testfileBytes]) false 0 0 [] 0 =
      .ok ([⟨0, 0, true⟩], 60, 60, 0, true,
        joinLines [totalLine sha1fn likefileBytes],
        joinLines [totalLine sha1fn testfileBytes]) := by
    show diffsBuilderLoop 1000 60 _ _ false 0 0 [] 0 = _
    rw [diffsBuilderLoop_step_ok 1000 60 _ _ false 0 0 [] 0 (by omega) _ _ _ _
      (readString_digest_line md5fn likefileBytes 191 113 14 173 (by decide) (by decide)
        [totalLine sha1fn likefileBytes])
      (readString_digest_line md5fn testfileBytes 184 145 14 77 (by decide) (by decide)
        [totalLine sha1fn testfileBytes])]
    rw [if_pos ⟨rfl, hneW⟩]
    norm_num
    exact diffsBuilderLoop_step_exit 1000 60 _ _ true 0 60 _ 60 (by omega)
  have hdb : diffsBuilder (NewDiffs [115] testfileName likefileName 1000 60)
      (joinLines [b64encode (sliceDigest md5fn likefileBytes),
        totalLine sha1fn likefileBytes])
      (joinLines [b64encode (sliceDigest md5fn testfileBytes),
        totalLine sha1fn testfileBytes]) 60 =
      .ok ({ NewDiffs [115] testfileName likefileName 1000 60 with
             Diffs := [⟨0, 60, true⟩],
             Differences := 60 },
        joinLines [totalLine sha1fn likefileBytes],
        joinLines [totalLine sha1fn testfileBytes]) := by
    unfold diffsBuilder
    rw [hloop]
    norm_num [setLastSize, NewDiffs]
  unfold NaiveDiffs
  rw [hhdrL]
  simp only []
  rw [hhdrR]
  simp only []
  rw [hdb]
  simp only []
  rw [if_neg (by simp)]
  rw [readAttribute_totalLine sha1fn likefileBytes []]
  simp only []
  rw [readAttribute_totalLine sha1fn testfileBytes []]

/-- C8: for the concrete 60-byte files of scenario S2 (remote lines
A,B,C,D,E,A; local alike differing by one byte in each of lines 3, 5
and 6), and for any MD5/SHA-1 primitives, the naive diff engine reports
`Differences = 30` at slice size 10 and `Differences = 60` at slice size
1000 (a single slice covering all 60 bytes). -/
theorem c8_scenario_s2_differences (md5fn sha1fn : List Nat → List Nat) :
    (∃ d, NaiveDiffs [115] testfileName likefileName 10
        (hashDump md5fn sha1fn likefileName 10 likefileBytes)
        (hashDump md5fn sha1fn testfileName 10 testfileBytes) = .ok d ∧
      d.Differences = 30) ∧
    (∃ d, NaiveDiffs [115] testfileName likefileName 1000
        (hashDump md5fn sha1fn likefileName 1000 likefileBytes)
        (hashDump md5fn sha1fn testfileName 1000 testfileBytes) = .ok d ∧
      d.Differences = 60) :=
  ⟨⟨_, naiveDiffs_s2_slice10 md5fn sha1fn, rfl⟩,
   ⟨_, naiveDiffs_s2_slice1000 md5fn sha1fn, rfl⟩⟩

end Slicesync
